import Mathlib

/-!
# DependencyDescriptorLayerSelector

A shallow embedding of `src/DependencyDescriptorLayerSelector.cpp` (the AV1
dependency-descriptor layer selector of the media server) and theorems about it.

Conventions of the embedding

* machine integers are natural numbers; the one place where unsigned wrap-around
  matters, `extFrameNum - diff` on 64 bit values, is `sub64`;
* `std::optional<T>` is `Option T`, `std::vector<T>` is `List T`;
* `Select` returns `none` when the C++ code would index a vector out of range (or
  dereference an empty optional), which is undefined behaviour there;
* the `bool &mark` out-parameter is an input (the caller's value) and a component of the
  result: a rejected packet leaves it untouched.
-/

namespace MediaServer

/-! ## Constants -/

/-- The value of `std::numeric_limits<uint32_t>::max()`. -/
def UINT32_MAX : Nat := 4294967295

/-- The value of `std::numeric_limits<uint64_t>::max()`. -/
def UINT64_MAX : Nat := 18446744073709551615

/-- The number of values of a `uint64_t`. -/
def UINT64_MOD : Nat := 18446744073709551616

/-- Line 5: `constexpr uint32_t NoChain = std::numeric_limits<uint32_t>::max()`. -/
def NoChain : Nat := UINT32_MAX

/-- Line 6: `constexpr uint32_t NoDecodeTarget = std::numeric_limits<uint32_t>::max()`. -/
def NoDecodeTarget : Nat := UINT32_MAX

/-- Line 7: `constexpr uint64_t NoFrame = std::numeric_limits<uint64_t>::max()`. -/
def NoFrame : Nat := UINT64_MAX

/-- Unsigned 64 bit subtraction `a - b`, wrapping around. -/
def sub64 (a b : Nat) : Nat := (a % UINT64_MOD + (UINT64_MOD - b % UINT64_MOD)) % UINT64_MOD

/-- Modelled from the spec: the logging facility is an external collaborator whose header is
not part of the sources. `return Warning(...)` is used on the paths the code comments as
"Error" and "Skip", which the spec describes as rejections, so the value is `false`. -/
def Warning : Bool := false

/-- Modelled from the spec: the logging facility is an external collaborator whose header is
not part of the sources. `return Debug(...)` is used on the two paths the code comments as
"Ignore packet", which the spec describes as rejections, so the value is `false`. -/
def Debug : Bool := false

/-! ## Data model -/

/-- The decode target indication of a frame for one decode target. -/
inductive DecodeTargetIndication where
  | NotPresent
  | Discardable
  | Switch
  | Required
deriving DecidableEq, Repr

/-- A layer coordinate. -/
structure LayerInfo where
  temporalLayerId : Nat
  spatialLayerId : Nat
deriving DecidableEq, Repr

/-- Modelled from the spec: the declaration of `LayerInfo::MaxLayerId` is absent from the
sources; it is the sentinel "no restriction" of the `BYTE` layer ids, the largest `BYTE`. -/
def LayerInfo.MaxLayerId : Nat := 255

/-- A frame dependency template: a layer coordinate and the three per-template lists. -/
structure FrameDependencyTemplate extends LayerInfo where
  decodeTargetIndications : List DecodeTargetIndication
  frameDiffs : List Nat
  frameDiffsChains : List Nat
deriving DecidableEq, Repr

/-- The parsed dependency descriptor of a packet. -/
structure DependencyDescriptor where
  frameNumber : Nat
  startOfFrame : Bool
  endOfFrame : Bool
  frameDependencyTemplateId : Nat
  customDecodeTargetIndications : Option (List DecodeTargetIndication)
  customFrameDiffs : Option (List Nat)
  customFrameDiffsChains : Option (List Nat)
deriving DecidableEq, Repr

/-- The template dependency structure; `templates` maps a template id to its template. -/
structure TemplateDependencyStructure where
  dtsCount : Nat
  decodeTargetLayerMapping : List LayerInfo
  decodeTargetProtectedByChain : List Nat
  templates : List (Nat × FrameDependencyTemplate)
deriving DecidableEq, Repr

/-- Modelled from the spec: `GetFrameDependencyTemplate` is declared in a header that is not
part of the sources; the spec describes `templates` as a mapping from template id to
template. The result is `none` when the id has no template. -/
def TemplateDependencyStructure.GetFrameDependencyTemplate (tds : TemplateDependencyStructure)
    (id : Nat) : Option FrameDependencyTemplate :=
  (tds.templates.find? (fun e => e.1 == id)).map (fun e => e.2)

/-- Modelled from the spec: `ContainsFrameDependencyTemplate` is declared in a header that is
not part of the sources; it tells whether the mapping has a template for the id. -/
def TemplateDependencyStructure.ContainsFrameDependencyTemplate
    (tds : TemplateDependencyStructure) (id : Nat) : Bool :=
  (tds.GetFrameDependencyTemplate id).isSome

/-- What `Select` reads of an RTP packet. -/
structure RTPPacket where
  dependencyDescriptor : Option DependencyDescriptor
  templateDependencyStructure : Option TemplateDependencyStructure
  activeDecodeTargets : Option (List Bool)
  mark : Bool
deriving DecidableEq, Repr

/-- Modelled from the spec: the class of `forwardedFrames` is declared in a header that is not
part of the sources. The spec describes a set of extended frame numbers with `Contains` and
`Add`; the eviction of old entries from its bounded window is not modelled. -/
structure ForwardedFrames where
  frames : List Nat
deriving DecidableEq, Repr

/-- Modelled from the spec: membership query of the ledger. -/
def ForwardedFrames.Contains (l : ForwardedFrames) (n : Nat) : Bool := decide (n ∈ l.frames)

/-- Modelled from the spec: insertion into the ledger. -/
def ForwardedFrames.Add (l : ForwardedFrames) (n : Nat) : ForwardedFrames :=
  ⟨l.frames.insert n⟩

/-- The frame number extender, an external collaborator of the selector: `Extend` feeds it the
16 bit wire frame number and `GetExtSeqNum` reads the extended number. The selector is
generic in it. -/
class WrapExtender (E : Type) where
  Extend : E → Nat → E
  GetExtSeqNum : E → Nat

/-- An extender stub that returns the wire number unchanged. -/
structure IdentityExtender where
  extSeqNum : Nat
deriving DecidableEq, Repr

instance : WrapExtender IdentityExtender where
  Extend := fun _ n => ⟨n⟩
  GetExtSeqNum := fun e => e.extSeqNum

/-- The state of a selector. -/
structure DependencyDescriptorLayerSelector (E : Type) where
  codec : Nat
  waitingForIntra : Bool
  frameNumberExtender : E
  currentFrameNumber : Nat
  temporalLayerId : Nat
  spatialLayerId : Nat
  forwardedDecodeTargets : Option (List Bool)
  forwardedFrames : ForwardedFrames
deriving DecidableEq, Repr

/-- The result of `Select`: the selector afterwards, the returned `bool` and the value of the
`mark` reference afterwards. -/
structure SelectResult (E : Type) where
  self : DependencyDescriptorLayerSelector E
  accept : Bool
  mark : Bool
deriving DecidableEq, Repr

namespace DependencyDescriptorLayerSelector

variable {E : Type}

/-- Modelled from the spec: the constructor of the source only stores the codec, the initial
values of the other members are in a header that is not part of the sources. The spec gives
`spatialLayerId = temporalLayerId = MaxLayerId`, `currentFrameNumber = NoFrame`, an empty
ledger and `waitingForIntra = false`. -/
def construct (codec : Nat) (extender : E) : DependencyDescriptorLayerSelector E :=
  { codec := codec
    waitingForIntra := false
    frameNumberExtender := extender
    currentFrameNumber := NoFrame
    temporalLayerId := LayerInfo.MaxLayerId
    spatialLayerId := LayerInfo.MaxLayerId
    forwardedDecodeTargets := none
    forwardedFrames := ⟨[]⟩ }

/-- Lines 14 to 18. -/
def SelectTemporalLayer (s : DependencyDescriptorLayerSelector E) (id : Nat) :
    DependencyDescriptorLayerSelector E :=
  { s with temporalLayerId := id }

/-- Lines 20 to 24. -/
def SelectSpatialLayer (s : DependencyDescriptorLayerSelector E) (id : Nat) :
    DependencyDescriptorLayerSelector E :=
  { s with spatialLayerId := id }

/-! ## Select -/

/-- The values `Select` has computed when it reaches line 115: the selector (extender and
`currentFrameNumber` updated), the descriptor, structure and template of the packet, the
extended frame number, the effective lists (lines 83 to 85) and `decodable`. -/
structure FrameContext (E : Type) where
  self : DependencyDescriptorLayerSelector E
  dependencyDescriptor : DependencyDescriptor
  templateDependencyStructure : TemplateDependencyStructure
  frameDependencyTemplate : FrameDependencyTemplate
  extFrameNum : Nat
  decodeTargetIndications : List DecodeTargetIndication
  frameDiffs : List Nat
  frameDiffsChains : List Nat
  decodable : Bool

/-- How lines 28 to 115 end: with a `return`, or with the values the rest of `Select` uses. -/
inductive Prologue (E : Type) where
  | returned (r : SelectResult E)
  | proceed (c : FrameContext E)

/-- The loop of lines 99 to 108 over the frame diffs from position `i` on, given the value of
`decodable` before iteration `i`: it stops as soon as `decodable` is false. -/
def checkFrameDiffs (forwardedFrames : ForwardedFrames) (extFrameNum : Nat) :
    List Nat → Bool → Bool
  | [], decodable => decodable
  | diff :: rest, decodable =>
    if decodable then
      let referencedFrame := sub64 extFrameNum diff
      if referencedFrame ≠ extFrameNum then
        checkFrameDiffs forwardedFrames extFrameNum rest (forwardedFrames.Contains referencedFrame)
      else
        checkFrameDiffs forwardedFrames extFrameNum rest decodable
    else
      decodable

/-- Lines 52 and 53: the extended frame number of the packet, a `uint64_t`. -/
def extFrameNumOf [WrapExtender E] (s : DependencyDescriptorLayerSelector E)
    (dependencyDescriptor : DependencyDescriptor) : Nat :=
  WrapExtender.GetExtSeqNum
    (WrapExtender.Extend s.frameNumberExtender dependencyDescriptor.frameNumber) % UINT64_MOD

/-- Line 83: the decode target indications of the descriptor if present, else the
template's. -/
def effectiveDecodeTargetIndications (dependencyDescriptor : DependencyDescriptor)
    (frameDependencyTemplate : FrameDependencyTemplate) : List DecodeTargetIndication :=
  match dependencyDescriptor.customDecodeTargetIndications with
  | some v => v
  | none => frameDependencyTemplate.decodeTargetIndications

/-- Line 84: the frame diffs of the descriptor if present, else the template's. -/
def effectiveFrameDiffs (dependencyDescriptor : DependencyDescriptor)
    (frameDependencyTemplate : FrameDependencyTemplate) : List Nat :=
  match dependencyDescriptor.customFrameDiffs with
  | some v => v
  | none => frameDependencyTemplate.frameDiffs

/-- Line 85: the frame diffs of the chains of the descriptor if present, else the
template's. -/
def effectiveFrameDiffsChains (dependencyDescriptor : DependencyDescriptor)
    (frameDependencyTemplate : FrameDependencyTemplate) : List Nat :=
  match dependencyDescriptor.customFrameDiffsChains with
  | some v => v
  | none => frameDependencyTemplate.frameDiffsChains

/-- Lines 28 to 115 of `Select`. The test of line 75 and the lookup of line 80 are the one
match on `GetFrameDependencyTemplate`. -/
def SelectPrologue [WrapExtender E] (s : DependencyDescriptorLayerSelector E)
    (packet : RTPPacket) (mark : Bool) : Prologue E :=
  match packet.dependencyDescriptor with
  | none => .returned ⟨{ s with waitingForIntra := true }, Warning, mark⟩
  | some dependencyDescriptor =>
    match packet.templateDependencyStructure with
    | none => .returned ⟨{ s with waitingForIntra := true }, Warning, mark⟩
    | some templateDependencyStructure =>
      let s1 := { s with frameNumberExtender :=
        WrapExtender.Extend s.frameNumberExtender dependencyDescriptor.frameNumber }
      let extFrameNum := extFrameNumOf s dependencyDescriptor
      if s1.currentFrameNumber = UINT32_MAX ∧ dependencyDescriptor.startOfFrame = false then
        .returned ⟨{ s1 with waitingForIntra := true }, false, mark⟩
      else
        let s2 := if s1.currentFrameNumber = UINT32_MAX
          then { s1 with currentFrameNumber := extFrameNum } else s1
        match templateDependencyStructure.GetFrameDependencyTemplate
            dependencyDescriptor.frameDependencyTemplateId with
        | none => .returned ⟨s2, Warning, mark⟩
        | some frameDependencyTemplate =>
          let frameDiffs := effectiveFrameDiffs dependencyDescriptor frameDependencyTemplate
          let decodable0 :=
            !(decide (extFrameNum > s2.currentFrameNumber) && !dependencyDescriptor.startOfFrame)
          let s3 := { s2 with currentFrameNumber := max extFrameNum s2.currentFrameNumber }
          let decodable := checkFrameDiffs s3.forwardedFrames extFrameNum frameDiffs decodable0
          .proceed
            { self := s3
              dependencyDescriptor := dependencyDescriptor
              templateDependencyStructure := templateDependencyStructure
              frameDependencyTemplate := frameDependencyTemplate
              extFrameNum := extFrameNum
              decodeTargetIndications :=
                effectiveDecodeTargetIndications dependencyDescriptor frameDependencyTemplate
              frameDiffs := frameDiffs
              frameDiffsChains :=
                effectiveFrameDiffsChains dependencyDescriptor frameDependencyTemplate
              decodable := decodable }

/-- Lines 117 to 131: the bitmap when the search starts. With a cap it is a copy of the
packet's active decode targets, or `dtsCount` times `true`; without one it is what the
previous call left. -/
def materialise (s : DependencyDescriptorLayerSelector E) (dtsCount : Nat)
    (activeDecodeTargets : Option (List Bool)) : Option (List Bool) :=
  if s.spatialLayerId ≠ LayerInfo.MaxLayerId ∨ s.temporalLayerId ≠ LayerInfo.MaxLayerId then
    match activeDecodeTargets with
    | some a => some a
    | none => some (List.replicate dtsCount true)
  else
    s.forwardedDecodeTargets

/-- The local variables of the search that outlive an iteration of the loop. -/
structure SearchState where
  currentChain : Nat
  currentDecodeTarget : Nat
  forwardedDecodeTargets : Option (List Bool)
  needsForwardedDecodeTargets : Bool
deriving DecidableEq, Repr

/-- The value `!activeDecodeTargets || (*activeDecodeTargets)[decodeTarget]` of lines 147 and
155; `none` when the index is out of range. -/
def activeAt (activeDecodeTargets : Option (List Bool)) (decodeTarget : Nat) : Option Bool :=
  match activeDecodeTargets with
  | none => some true
  | some a => a[decodeTarget]?

/-- How an iteration of the loop of lines 137 to 201 ends: with an out of range index, with
`break`, or with `continue` (also when the end of the body is reached). -/
inductive LoopStep where
  | undefined
  | breakLoop (st : SearchState)
  | continueLoop (st : SearchState)
deriving DecidableEq, Repr

/-- The body of the loop of lines 137 to 201 for one `decodeTarget` (lines 142 to 200). -/
def tryDecodeTarget (tds : TemplateDependencyStructure)
    (activeDecodeTargets : Option (List Bool)) (frameDiffsChains : List Nat)
    (forwardedFrames : ForwardedFrames) (extFrameNum spatialLayerId temporalLayerId : Nat)
    (decodeTarget : Nat) (st : SearchState) : LoopStep :=
  match tds.decodeTargetLayerMapping[decodeTarget]? with
  | none => .undefined
  | some layer =>
    match activeAt activeDecodeTargets decodeTarget with
    | none => .undefined
    | some active =>
      if layer.spatialLayerId ≤ spatialLayerId ∧ layer.temporalLayerId ≤ temporalLayerId then
        if active then
          if tds.decodeTargetProtectedByChain.isEmpty then
            .breakLoop { st with currentDecodeTarget := decodeTarget }
          else if tds.decodeTargetProtectedByChain.length < decodeTarget then
            .continueLoop st
          else
            match tds.decodeTargetProtectedByChain[decodeTarget]? with
            | none => .undefined
            | some chain =>
              if frameDiffsChains.length < chain then
                .continueLoop st
              else
                match frameDiffsChains[chain]? with
                | none => .undefined
                | some diff =>
                  let prevFrameInCurrentChain := sub64 extFrameNum diff
                  if prevFrameInCurrentChain ≠ 0 ∧ prevFrameInCurrentChain ≠ extFrameNum ∧
                      forwardedFrames.Contains prevFrameInCurrentChain = false then
                    .continueLoop st
                  else
                    .breakLoop { st with currentChain := chain, currentDecodeTarget := decodeTarget }
        else
          .continueLoop st
      else
        match st.forwardedDecodeTargets with
        | none => .undefined
        | some bits =>
          if decodeTarget < bits.length then
            .continueLoop
              { st with forwardedDecodeTargets := some (bits.set decodeTarget false)
                        needsForwardedDecodeTargets := true }
          else
            .undefined

/-- The loop of lines 137 to 201. The first argument `n` is the number of decode targets
still to try: the iteration examines `decodeTarget = n - 1` (`dtsCount - i - 1` in the source),
the highest decode target first. The result is `none` when an index is out of range. -/
def searchDecodeTarget (tds : TemplateDependencyStructure)
    (activeDecodeTargets : Option (List Bool)) (frameDiffsChains : List Nat)
    (forwardedFrames : ForwardedFrames) (extFrameNum spatialLayerId temporalLayerId : Nat) :
    Nat → SearchState → Option SearchState
  | 0, st => some st
  | decodeTarget + 1, st =>
    match tryDecodeTarget tds activeDecodeTargets frameDiffsChains forwardedFrames extFrameNum
        spatialLayerId temporalLayerId decodeTarget st with
    | .undefined => none
    | .breakLoop st1 => some st1
    | .continueLoop st1 =>
      searchDecodeTarget tds activeDecodeTargets frameDiffsChains forwardedFrames extFrameNum
        spatialLayerId temporalLayerId decodeTarget st1

/-- Lines 110 to 201: the state of the search after the loop. -/
def SelectDecodeTarget (c : FrameContext E) (activeDecodeTargets : Option (List Bool)) :
    Option SearchState :=
  searchDecodeTarget c.templateDependencyStructure activeDecodeTargets c.frameDiffsChains
    c.self.forwardedFrames c.extFrameNum c.self.spatialLayerId c.self.temporalLayerId
    c.templateDependencyStructure.dtsCount
    { currentChain := NoChain
      currentDecodeTarget := NoDecodeTarget
      forwardedDecodeTargets :=
        materialise c.self c.templateDependencyStructure.dtsCount activeDecodeTargets
      needsForwardedDecodeTargets := false }

/-- Lines 203 to 263 of `Select`; `none` when line 227 indexes out of range. -/
def SelectEpilogue (c : FrameContext E) (packet : RTPPacket) (mark : Bool) (st : SearchState) :
    Option (SelectResult E) :=
  let s4 := { c.self with forwardedDecodeTargets :=
    if st.needsForwardedDecodeTargets then st.forwardedDecodeTargets else none }
  if st.currentDecodeTarget = NoDecodeTarget then
    some ⟨{ s4 with waitingForIntra := true }, Debug, mark⟩
  else if c.decodeTargetIndications.length < st.currentDecodeTarget then
    some ⟨{ s4 with waitingForIntra := true }, Debug, mark⟩
  else
    match c.decodeTargetIndications[st.currentDecodeTarget]? with
    | none => none
    | some dti =>
      if dti = DecodeTargetIndication.NotPresent then
        some ⟨s4, Warning, mark⟩
      else if c.decodable = false then
        some ⟨{ s4 with waitingForIntra := decide (dti ≠ DecodeTargetIndication.Discardable) },
          Warning, mark⟩
      else
        let mark1 := packet.mark || (c.dependencyDescriptor.endOfFrame &&
          decide (c.self.spatialLayerId = c.frameDependencyTemplate.spatialLayerId))
        let s5 := { s4 with waitingForIntra := false }
        let s6 := if c.dependencyDescriptor.endOfFrame
          then { s5 with forwardedFrames := s5.forwardedFrames.Add c.extFrameNum } else s5
        some ⟨s6, true, mark1⟩

/-- Lines 26 to 265: `bool Select(const RTPPacket::shared& packet, bool &mark)`. -/
def Select [WrapExtender E] (s : DependencyDescriptorLayerSelector E) (packet : RTPPacket)
    (mark : Bool) : Option (SelectResult E) :=
  match SelectPrologue s packet mark with
  | .returned r => some r
  | .proceed c =>
    match SelectDecodeTarget c packet.activeDecodeTargets with
    | none => none
    | some st => SelectEpilogue c packet mark st

/-! ## Sequences of calls -/

/-- A call of the public interface. -/
inductive Call where
  | select (packet : RTPPacket) (mark : Bool)
  | selectSpatialLayer (id : Nat)
  | selectTemporalLayer (id : Nat)
deriving DecidableEq, Repr

/-- What a call of `Select` was observed to do: the extended frame number of the packet, its
`endOfFrame` flag and the returned decision. -/
structure Observation where
  extFrameNum : Nat
  endOfFrame : Bool
  accept : Bool
deriving DecidableEq, Repr

/-- The observations a call of `Select` adds to the log: one when the packet has a descriptor
and a structure (otherwise `Select` returns before it computes a frame number). -/
def observe [WrapExtender E] (s : DependencyDescriptorLayerSelector E) (packet : RTPPacket)
    (accept : Bool) : List Observation :=
  match packet.dependencyDescriptor, packet.templateDependencyStructure with
  | some dependencyDescriptor, some _ =>
    [⟨extFrameNumOf s dependencyDescriptor, dependencyDescriptor.endOfFrame, accept⟩]
  | _, _ => []

/-- Runs a sequence of calls from a selector, collecting the observations of the calls of
`Select` in order; `none` when one of them has undefined behaviour. -/
def run [WrapExtender E] :
    List Call → DependencyDescriptorLayerSelector E → List Observation →
    Option (DependencyDescriptorLayerSelector E × List Observation)
  | [], s, log => some (s, log)
  | Call.select packet mark :: rest, s, log =>
    match Select s packet mark with
    | none => none
    | some r => run rest r.self (log ++ observe s packet r.accept)
  | Call.selectSpatialLayer id :: rest, s, log => run rest (s.SelectSpatialLayer id) log
  | Call.selectTemporalLayer id :: rest, s, log => run rest (s.SelectTemporalLayer id) log

end DependencyDescriptorLayerSelector

open DependencyDescriptorLayerSelector

/-! ## Predicates of the specification -/

/-- Decode target `d` is mapped to a layer within the caps: `spatial(d) <= requested spatial`
and `temporal(d) <= requested temporal`. -/
def withinCaps (tds : TemplateDependencyStructure) (spatialLayerId temporalLayerId d : Nat) :
    Bool :=
  match tds.decodeTargetLayerMapping[d]? with
  | some layer =>
    decide (layer.spatialLayerId ≤ spatialLayerId) &&
      decide (layer.temporalLayerId ≤ temporalLayerId)
  | none => false

/-- Decode target `d` is mapped to a layer that exceeds the spatial or the temporal cap. -/
def exceedsCaps (tds : TemplateDependencyStructure) (spatialLayerId temporalLayerId d : Nat) :
    Bool :=
  match tds.decodeTargetLayerMapping[d]? with
  | some layer =>
    decide (spatialLayerId < layer.spatialLayerId) ||
      decide (temporalLayerId < layer.temporalLayerId)
  | none => false

/-- The active decode target bitmap is absent or has `true` at `d`. -/
def isActive (activeDecodeTargets : Option (List Bool)) (d : Nat) : Bool :=
  match activeDecodeTargets with
  | none => true
  | some a => a[d]? == some true

/-- The structure has no chain info, or the previous frame of the chain that protects `d`,
`prev = extFrameNum - frameDiffsChains[decodeTargetProtectedByChain[d]]`, is 0, is the frame
itself, or is in the ledger. -/
def chainIntact (tds : TemplateDependencyStructure) (frameDiffsChains : List Nat)
    (forwardedFrames : ForwardedFrames) (extFrameNum d : Nat) : Bool :=
  tds.decodeTargetProtectedByChain.isEmpty ||
    match tds.decodeTargetProtectedByChain[d]? with
    | none => false
    | some chain =>
      match frameDiffsChains[chain]? with
      | none => false
      | some diff =>
        sub64 extFrameNum diff == 0 || sub64 extFrameNum diff == extFrameNum ||
          forwardedFrames.Contains (sub64 extFrameNum diff)

/-- A qualifying decode target: within the caps, active, and with an intact chain. -/
def qualifies (tds : TemplateDependencyStructure) (activeDecodeTargets : Option (List Bool))
    (frameDiffsChains : List Nat) (forwardedFrames : ForwardedFrames)
    (extFrameNum spatialLayerId temporalLayerId d : Nat) : Bool :=
  withinCaps tds spatialLayerId temporalLayerId d && isActive activeDecodeTargets d &&
    chainIntact tds frameDiffsChains forwardedFrames extFrameNum d

/-- A well-formed structure for a packet: `decodeTargetLayerMapping` has `dtsCount` entries,
`decodeTargetProtectedByChain` is empty or has `dtsCount` entries that are indices of the
effective frame diffs of the chains, and the active decode target bitmap is absent or has
`dtsCount` entries. -/
def WellFormed (tds : TemplateDependencyStructure) (activeDecodeTargets : Option (List Bool))
    (frameDiffsChains : List Nat) : Prop :=
  tds.decodeTargetLayerMapping.length = tds.dtsCount ∧
  (tds.decodeTargetProtectedByChain = [] ∨
    (tds.decodeTargetProtectedByChain.length = tds.dtsCount ∧
      ∀ chain ∈ tds.decodeTargetProtectedByChain, chain < frameDiffsChains.length)) ∧
  (∀ a ∈ activeDecodeTargets, a.length = tds.dtsCount)

instance (tds : TemplateDependencyStructure) (activeDecodeTargets : Option (List Bool))
    (frameDiffsChains : List Nat) :
    Decidable (WellFormed tds activeDecodeTargets frameDiffsChains) := by
  unfold WellFormed
  infer_instance

/-- The layer ids of the mapping are values of the type `BYTE` of the source, of which
`MaxLayerId` is the largest. -/
def LayerIdsAreBytes (tds : TemplateDependencyStructure) : Prop :=
  ∀ layer ∈ tds.decodeTargetLayerMapping,
    layer.spatialLayerId ≤ LayerInfo.MaxLayerId ∧ layer.temporalLayerId ≤ LayerInfo.MaxLayerId

instance (tds : TemplateDependencyStructure) : Decidable (LayerIdsAreBytes tds) := by
  unfold LayerIdsAreBytes
  infer_instance

/-- The ledger the specification prescribes after a call of `Select` that returned `accept`:
the ledger before plus the extended frame number when an `endOfFrame` packet was accepted,
the ledger before in every other case. -/
def ledgerAfter [WrapExtender E] (s : DependencyDescriptorLayerSelector E) (packet : RTPPacket)
    (accept : Bool) : ForwardedFrames :=
  match packet.dependencyDescriptor with
  | some dependencyDescriptor =>
    if accept && dependencyDescriptor.endOfFrame
    then s.forwardedFrames.Add (extFrameNumOf s dependencyDescriptor)
    else s.forwardedFrames
  | none => s.forwardedFrames

/-- The extended frame numbers of a log for which an `endOfFrame` packet was accepted. -/
def acceptedEndOfFrame (log : List Observation) (n : Nat) : Prop :=
  ∃ o ∈ log, o.accept = true ∧ o.endOfFrame = true ∧ o.extFrameNum = n

/-- A well-formed packet: when it has a descriptor, a structure and a template for the
descriptor, the structure is well-formed for it, the layer ids are bytes, and the effective
decode target indications have `dtsCount` entries. -/
def WellFormedPacket (packet : RTPPacket) : Prop :=
  ∀ dd ∈ packet.dependencyDescriptor, ∀ tds ∈ packet.templateDependencyStructure,
    ∀ tmpl ∈ tds.GetFrameDependencyTemplate dd.frameDependencyTemplateId,
      WellFormed tds packet.activeDecodeTargets (effectiveFrameDiffsChains dd tmpl) ∧
      LayerIdsAreBytes tds ∧
      (effectiveDecodeTargetIndications dd tmpl).length = tds.dtsCount

instance (packet : RTPPacket) : Decidable (WellFormedPacket packet) := by
  unfold WellFormedPacket
  infer_instance

/-- Decode target `d` is the greatest decode target below `dtsCount` that is within the caps
and active. -/
def greatestWithinCapsAndActive (tds : TemplateDependencyStructure)
    (activeDecodeTargets : Option (List Bool)) (spatialLayerId temporalLayerId d : Nat) : Prop :=
  d < tds.dtsCount ∧ withinCaps tds spatialLayerId temporalLayerId d = true ∧
    isActive activeDecodeTargets d = true ∧
    ∀ e < tds.dtsCount, d < e →
      (withinCaps tds spatialLayerId temporalLayerId e && isActive activeDecodeTargets e) = false

instance (tds : TemplateDependencyStructure) (activeDecodeTargets : Option (List Bool))
    (spatialLayerId temporalLayerId d : Nat) :
    Decidable (greatestWithinCapsAndActive tds activeDecodeTargets spatialLayerId
      temporalLayerId d) := by
  unfold greatestWithinCapsAndActive
  infer_instance

/-! ## The toy structure of the end-to-end scenarios -/

namespace Toy

/-- Template 0 of the toy structure: the intra frame, `S0 T0`. -/
def template0 : FrameDependencyTemplate :=
  { temporalLayerId := 0
    spatialLayerId := 0
    decodeTargetIndications := [DecodeTargetIndication.Switch, DecodeTargetIndication.Switch]
    frameDiffs := []
    frameDiffsChains := [0] }

/-- Template 1 of the toy structure: a `S0 T1` frame that references the previous frame. -/
def template1 : FrameDependencyTemplate :=
  { temporalLayerId := 1
    spatialLayerId := 0
    decodeTargetIndications := [DecodeTargetIndication.NotPresent, DecodeTargetIndication.Switch]
    frameDiffs := [1]
    frameDiffsChains := [1] }

/-- The toy structure: two decode targets `(S0,T0)` and `(S0,T1)`, one chain. -/
def tds : TemplateDependencyStructure :=
  { dtsCount := 2
    decodeTargetLayerMapping :=
      [{ temporalLayerId := 0, spatialLayerId := 0 },
       { temporalLayerId := 1, spatialLayerId := 0 }]
    decodeTargetProtectedByChain := [0, 0]
    templates := [(0, template0), (1, template1)] }

/-- A dependency descriptor without custom lists. -/
def descriptor (frameNumber templateId : Nat) (startOfFrame endOfFrame : Bool) :
    DependencyDescriptor :=
  { frameNumber := frameNumber
    startOfFrame := startOfFrame
    endOfFrame := endOfFrame
    frameDependencyTemplateId := templateId
    customDecodeTargetIndications := none
    customFrameDiffs := none
    customFrameDiffsChains := none }

/-- A packet of the toy stream without custom lists and without an active decode target
bitmap. -/
def packet (frameNumber templateId : Nat) (startOfFrame endOfFrame mark : Bool) : RTPPacket :=
  { dependencyDescriptor := some (descriptor frameNumber templateId startOfFrame endOfFrame)
    templateDependencyStructure := some tds
    activeDecodeTargets := none
    mark := mark }

/-- A packet without a dependency descriptor. -/
def bare : RTPPacket :=
  { dependencyDescriptor := none
    templateDependencyStructure := none
    activeDecodeTargets := none
    mark := false }

/-- A fresh selector over the identity extender. -/
def fresh : DependencyDescriptorLayerSelector IdentityExtender :=
  DependencyDescriptorLayerSelector.construct 0 ⟨0⟩

/-- The values of `Select` at line 115 for the packet of frame 10 with template 0 on a fresh
selector. -/
def context10 : FrameContext IdentityExtender :=
  { self := { fresh with frameNumberExtender := ⟨10⟩ }
    dependencyDescriptor := descriptor 10 0 true true
    templateDependencyStructure := tds
    frameDependencyTemplate := template0
    extFrameNum := 10
    decodeTargetIndications := [DecodeTargetIndication.Switch, DecodeTargetIndication.Switch]
    frameDiffs := []
    frameDiffsChains := [0]
    decodable := true }

/-- The selector after the intra packet of frame 10 was accepted by a fresh selector. -/
def after10 : DependencyDescriptorLayerSelector IdentityExtender :=
  { fresh with frameNumberExtender := ⟨10⟩, forwardedFrames := ⟨[10]⟩ }

/-- A selector that has adopted frame 10 as its current frame and has forwarded it. -/
def started10 : DependencyDescriptorLayerSelector IdentityExtender :=
  { after10 with currentFrameNumber := 10 }

/-- Frame 11 of the toy stream overtakes frame 10: the first packet of frame 11, the single
packet of frame 10, then the last packet of frame 11. -/
def reordered : List Call :=
  [Call.select (packet 11 1 true false false) false,
   Call.select (packet 10 0 true true false) false,
   Call.select (packet 11 1 false true false) false]

/-- Frame 11 of the toy stream is entered in its middle: a packet that is neither the first
nor the last of the frame, then the last packet of the frame. -/
def midFrame : List Call :=
  [Call.select (packet 11 1 false false false) false,
   Call.select (packet 11 1 false true false) false]

/-- The values of `Select` at line 115 for the single packet of frame 11 with template 1 on
the selector that has forwarded frame 10 and has temporal cap 0. -/
def context11 : FrameContext IdentityExtender :=
  { self := { after10 with frameNumberExtender := ⟨11⟩, temporalLayerId := 0 }
    dependencyDescriptor := descriptor 11 1 true true
    templateDependencyStructure := tds
    frameDependencyTemplate := template1
    extFrameNum := 11
    decodeTargetIndications :=
      [DecodeTargetIndication.NotPresent, DecodeTargetIndication.Switch]
    frameDiffs := [1]
    frameDiffsChains := [1]
    decodable := true }

/-- The state of the search for `context11`: decode target 1 was pruned by the cap, decode
target 0 was chosen with chain 0. -/
def search11 : SearchState :=
  { currentChain := 0
    currentDecodeTarget := 0
    forwardedDecodeTargets := some [true, false]
    needsForwardedDecodeTargets := true }

/-- The only template of the structure `l2t2`: a key frame at `S0 T0`. -/
def keyTemplate : FrameDependencyTemplate :=
  { temporalLayerId := 0
    spatialLayerId := 0
    decodeTargetIndications :=
      [DecodeTargetIndication.Switch, DecodeTargetIndication.Switch,
       DecodeTargetIndication.Switch, DecodeTargetIndication.Switch]
    frameDiffs := []
    frameDiffsChains := [] }

/-- A structure with two spatial and two temporal layers and no chain info; its decode
targets are `(S0,T0)`, `(S0,T1)`, `(S1,T0)`, `(S1,T1)`. -/
def l2t2 : TemplateDependencyStructure :=
  { dtsCount := 4
    decodeTargetLayerMapping :=
      [{ temporalLayerId := 0, spatialLayerId := 0 },
       { temporalLayerId := 1, spatialLayerId := 0 },
       { temporalLayerId := 0, spatialLayerId := 1 },
       { temporalLayerId := 1, spatialLayerId := 1 }]
    decodeTargetProtectedByChain := []
    templates := [(0, keyTemplate)] }

/-- The single packet of the key frame 10 of the stream with structure `l2t2`. -/
def keyPacket : RTPPacket :=
  { dependencyDescriptor := some (descriptor 10 0 true true)
    templateDependencyStructure := some l2t2
    activeDecodeTargets := none
    mark := true }

/-- A fresh selector with spatial cap 1 and temporal cap 0. -/
def capped : DependencyDescriptorLayerSelector IdentityExtender :=
  (fresh.SelectSpatialLayer 1).SelectTemporalLayer 0

/-- The selector `after10` after a call of `Select` with a packet without descriptor. -/
def waiting : DependencyDescriptorLayerSelector IdentityExtender :=
  { after10 with waitingForIntra := true }

/-- A packet of frame 12 of the toy stream whose indications are overridden to `Discardable`,
whose chain diff is overridden to 2 (frame 10, forwarded), and which references frame 11,
which was not forwarded. -/
def discardable12 : RTPPacket :=
  { dependencyDescriptor := some
      { frameNumber := 12
        startOfFrame := true
        endOfFrame := true
        frameDependencyTemplateId := 1
        customDecodeTargetIndications :=
          some [DecodeTargetIndication.Discardable, DecodeTargetIndication.Discardable]
        customFrameDiffs := none
        customFrameDiffsChains := some [2] }
    templateDependencyStructure := some tds
    activeDecodeTargets := none
    mark := false }

/-- The temporal cap is restricted to 0 for the intra packet of frame 10 and reset before a
packet without descriptor arrives. -/
def capReset : List Call :=
  [Call.selectTemporalLayer 0,
   Call.select (packet 10 0 true true false) false,
   Call.selectTemporalLayer LayerInfo.MaxLayerId,
   Call.select bare false]

/-- The selector before the last call of `capReset`: no caps, and the bitmap of the call that
had a cap. -/
def stale : DependencyDescriptorLayerSelector IdentityExtender :=
  { after10 with forwardedDecodeTargets := some [true, false] }

/-- A descriptor of frame 12 with template 1 whose indications are overridden to
`Discardable` and whose chain diffs are overridden as given. -/
def discardableDescriptor (chains : Option (List Nat)) : DependencyDescriptor :=
  { frameNumber := 12
    startOfFrame := true
    endOfFrame := true
    frameDependencyTemplateId := 1
    customDecodeTargetIndications :=
      some [DecodeTargetIndication.Discardable, DecodeTargetIndication.Discardable]
    customFrameDiffs := none
    customFrameDiffsChains := chains }

/-- The packet of frame 12 of the toy stream with template 1 and the indications overridden
to `Discardable`: it references frame 11 and the previous frame of its chain is frame 11. -/
def discardableBroken12 : RTPPacket :=
  { dependencyDescriptor := some (discardableDescriptor none)
    templateDependencyStructure := some tds
    activeDecodeTargets := none
    mark := false }

/-- The values of `Select` at line 115 for the packet `discardable12` on the selector
`started10`: frame 11 is referenced and is not in the ledger. -/
def context12 : FrameContext IdentityExtender :=
  { self := { started10 with frameNumberExtender := ⟨12⟩, currentFrameNumber := 12 }
    dependencyDescriptor := discardableDescriptor (some [2])
    templateDependencyStructure := tds
    frameDependencyTemplate := template1
    extFrameNum := 12
    decodeTargetIndications :=
      [DecodeTargetIndication.Discardable, DecodeTargetIndication.Discardable]
    frameDiffs := [1]
    frameDiffsChains := [2]
    decodable := false }

/-- The packet of the intra frame 10 of the toy stream with a given override of the decode
target indications and of the chain diffs. -/
def overridden (indications : Option (List DecodeTargetIndication))
    (chains : Option (List Nat)) : RTPPacket :=
  { dependencyDescriptor := some
      { frameNumber := 10
        startOfFrame := true
        endOfFrame := true
        frameDependencyTemplateId := 0
        customDecodeTargetIndications := indications
        customFrameDiffs := none
        customFrameDiffsChains := chains }
    templateDependencyStructure := some tds
    activeDecodeTargets := none
    mark := false }

/-- The toy structure with a `decodeTargetProtectedByChain` of one entry only. -/
def shortChains : TemplateDependencyStructure :=
  { tds with decodeTargetProtectedByChain := [0] }

/-- The packet of the intra frame 10 with the structure `shortChains`. -/
def shortChainsPacket : RTPPacket :=
  { packet 10 0 true true false with templateDependencyStructure := some shortChains }

end Toy

/-! ## One iteration of the decode target search -/

theorem isActive_eq_true_iff (active : Option (List Bool)) (d : Nat) :
    isActive active d = true ↔ activeAt active d = some true := by
  cases active <;> simp [isActive, activeAt]

/-- An iteration that ends with `break` has found a qualifying decode target and has not
touched the bitmap. -/
theorem tryDecodeTarget_breakLoop {tds : TemplateDependencyStructure}
    {active : Option (List Bool)} {fdc : List Nat} {ff : ForwardedFrames} {ext sp tl d : Nat}
    {st st1 : SearchState}
    (h : tryDecodeTarget tds active fdc ff ext sp tl d st = LoopStep.breakLoop st1) :
    qualifies tds active fdc ff ext sp tl d = true ∧ st1.currentDecodeTarget = d ∧
      st1.forwardedDecodeTargets = st.forwardedDecodeTargets ∧
      st1.needsForwardedDecodeTargets = st.needsForwardedDecodeTargets := by
  unfold tryDecodeTarget at h
  dsimp only at h
  repeat' split at h
  all_goals try cases h
  all_goals simp_all [qualifies, withinCaps, isActive_eq_true_iff, chainIntact]
  tauto

/-- An iteration that goes on with the next decode target has seen one that does not
qualify: it is within the caps and nothing changed, or it exceeds a cap and its bit was
cleared. -/
theorem tryDecodeTarget_continueLoop {tds : TemplateDependencyStructure}
    {active : Option (List Bool)} {fdc : List Nat} {ff : ForwardedFrames} {ext sp tl d : Nat}
    {st st1 : SearchState}
    (h : tryDecodeTarget tds active fdc ff ext sp tl d st = LoopStep.continueLoop st1) :
    qualifies tds active fdc ff ext sp tl d = false ∧
      st1.currentDecodeTarget = st.currentDecodeTarget ∧ st1.currentChain = st.currentChain ∧
      ((withinCaps tds sp tl d = true ∧ st1 = st) ∨
        (exceedsCaps tds sp tl d = true ∧ ∃ bits, st.forwardedDecodeTargets = some bits ∧
          d < bits.length ∧ st1.forwardedDecodeTargets = some (bits.set d false) ∧
          st1.needsForwardedDecodeTargets = true)) := by
  unfold tryDecodeTarget at h
  dsimp only at h
  repeat' split at h
  all_goals try cases h
  all_goals simp_all [qualifies, withinCaps, exceedsCaps, isActive_eq_true_iff, chainIntact]
  · rename_i hlt
    rw [List.getElem?_eq_none (Nat.le_of_lt hlt)]
  · rename_i hlt
    rw [List.getElem?_eq_none (Nat.le_of_lt hlt)]
  · right; omega

/-- An iteration is defined when every index it may use is in range. -/
theorem tryDecodeTarget_defined {tds : TemplateDependencyStructure}
    {active : Option (List Bool)} {fdc : List Nat} {ff : ForwardedFrames} {ext sp tl d : Nat}
    {st : SearchState}
    (hmap : d < tds.decodeTargetLayerMapping.length)
    (hact : ∀ a, active = some a → d < a.length)
    (hchain : tds.decodeTargetProtectedByChain = [] ∨
      (d < tds.decodeTargetProtectedByChain.length ∧
        ∀ ch, tds.decodeTargetProtectedByChain[d]? = some ch → ch < fdc.length))
    (hbits : exceedsCaps tds sp tl d = false ∨
      ∃ bits, st.forwardedDecodeTargets = some bits ∧ d < bits.length) :
    tryDecodeTarget tds active fdc ff ext sp tl d st ≠ LoopStep.undefined := by
  intro h
  unfold tryDecodeTarget at h
  dsimp only at h
  repeat' split at h
  all_goals try cases h
  all_goals simp_all [exceedsCaps, activeAt]
  all_goals first | omega | (cases active <;> simp_all)

/-! ## The decode target search -/

/-- The search stops at the greatest qualifying decode target below `n`, or leaves the
current decode target and chain as they were when none qualifies. -/
theorem searchDecodeTarget_greatest {tds : TemplateDependencyStructure}
    {active : Option (List Bool)} {fdc : List Nat} {ff : ForwardedFrames} {ext sp tl : Nat} :
    ∀ (n : Nat) (st st1 : SearchState),
      searchDecodeTarget tds active fdc ff ext sp tl n st = some st1 →
      (st1.currentDecodeTarget < n ∧
        qualifies tds active fdc ff ext sp tl st1.currentDecodeTarget = true ∧
        ∀ d, st1.currentDecodeTarget < d → d < n →
          qualifies tds active fdc ff ext sp tl d = false) ∨
      (st1.currentDecodeTarget = st.currentDecodeTarget ∧ st1.currentChain = st.currentChain ∧
        ∀ d, d < n → qualifies tds active fdc ff ext sp tl d = false) := by
  intro n
  induction n with
  | zero =>
    intro st st1 h
    simp only [searchDecodeTarget, Option.some.injEq] at h
    subst h
    exact Or.inr ⟨rfl, rfl, fun d hd => absurd hd (Nat.not_lt_zero d)⟩
  | succ k ih =>
    intro st st1 h
    rw [searchDecodeTarget] at h
    split at h
    · cases h
    · rename_i st2 hstep
      simp only [Option.some.injEq] at h
      subst h
      obtain ⟨hq, hd, -, -⟩ := tryDecodeTarget_breakLoop hstep
      refine Or.inl ⟨by omega, by rw [hd]; exact hq, ?_⟩
      intro d h1 h2
      omega
    · rename_i st2 hstep
      obtain ⟨hq, hd, hc, -⟩ := tryDecodeTarget_continueLoop hstep
      rcases ih st2 st1 h with ⟨h1, h2, h3⟩ | ⟨h1, h2, h3⟩
      · refine Or.inl ⟨by omega, h2, ?_⟩
        intro d hlo hhi
        rcases Nat.lt_succ_iff_lt_or_eq.mp hhi with hlt | heq
        · exact h3 d hlo hlt
        · rw [heq]; exact hq
      · refine Or.inr ⟨h1.trans hd, h2.trans hc, ?_⟩
        intro d hhi
        rcases Nat.lt_succ_iff_lt_or_eq.mp hhi with hlt | heq
        · exact h3 d hlt
        · rw [heq]; exact hq

/-- The search is defined when the vectors it indexes are long enough, the chains that
protect the decode targets are indices of the frame diffs of the chains, and a bitmap of
sufficient length is there whenever a decode target exceeds the caps. -/
theorem searchDecodeTarget_defined {tds : TemplateDependencyStructure}
    {active : Option (List Bool)} {fdc : List Nat} {ff : ForwardedFrames} {ext sp tl : Nat} :
    ∀ (n : Nat) (st : SearchState),
      n ≤ tds.decodeTargetLayerMapping.length →
      (∀ a, active = some a → n ≤ a.length) →
      (tds.decodeTargetProtectedByChain = [] ∨
        (n ≤ tds.decodeTargetProtectedByChain.length ∧
          ∀ ch, ch ∈ tds.decodeTargetProtectedByChain → ch < fdc.length)) →
      ((∀ d, d < n → exceedsCaps tds sp tl d = false) ∨
        ∃ bits, st.forwardedDecodeTargets = some bits ∧ n ≤ bits.length) →
      ∃ st1, searchDecodeTarget tds active fdc ff ext sp tl n st = some st1 := by
  intro n
  induction n with
  | zero =>
    intro st _ _ _ _
    exact ⟨st, rfl⟩
  | succ k ih =>
    intro st hmap hact hchain hbits
    have hdef : tryDecodeTarget tds active fdc ff ext sp tl k st ≠ LoopStep.undefined := by
      apply tryDecodeTarget_defined (Nat.lt_of_succ_le hmap)
      · intro a ha
        exact Nat.lt_of_succ_le (hact a ha)
      · rcases hchain with h | ⟨h1, h2⟩
        · exact Or.inl h
        · refine Or.inr ⟨Nat.lt_of_succ_le h1, ?_⟩
          intro ch hch
          exact h2 ch (List.getElem?_mem hch)
      · rcases hbits with h | ⟨bits, h1, h2⟩
        · exact Or.inl (h k (Nat.lt_succ_self k))
        · exact Or.inr ⟨bits, h1, Nat.lt_of_succ_le h2⟩
    rw [searchDecodeTarget]
    split
    · rename_i hstep
      exact absurd hstep hdef
    · rename_i st2 hstep
      exact ⟨st2, rfl⟩
    · rename_i st2 hstep
      obtain ⟨-, -, -, hcase⟩ := tryDecodeTarget_continueLoop hstep
      apply ih st2 (Nat.le_of_succ_le hmap)
      · intro a ha
        exact Nat.le_of_succ_le (hact a ha)
      · rcases hchain with h | ⟨h1, h2⟩
        · exact Or.inl h
        · exact Or.inr ⟨Nat.le_of_succ_le h1, h2⟩
      · rcases hbits with h | ⟨bits, h1, h2⟩
        · rcases hcase with ⟨-, heq⟩ | ⟨hex, -⟩
          · exact Or.inl (fun d hd => h d (Nat.lt_succ_of_lt hd))
          · rw [h k (Nat.lt_succ_self k)] at hex
            cases hex
        · rcases hcase with ⟨-, heq⟩ | ⟨-, bits2, hb1, -, hb3, -⟩
          · subst heq
            exact Or.inr ⟨bits, h1, Nat.le_of_succ_le h2⟩
          · rw [h1] at hb1
            cases hb1
            exact Or.inr ⟨_, hb3, by rw [List.length_set]; exact Nat.le_of_succ_le h2⟩

theorem withinCaps_not_exceedsCaps {tds : TemplateDependencyStructure} {sp tl d : Nat}
    (h : withinCaps tds sp tl d = true) : exceedsCaps tds sp tl d = false := by
  unfold withinCaps at h
  unfold exceedsCaps
  cases hm : tds.decodeTargetLayerMapping[d]? with
  | none => rfl
  | some layer =>
    rw [hm] at h
    simp only [Bool.and_eq_true, decide_eq_true_eq] at h
    simp only [Bool.or_eq_false_iff, decide_eq_false_iff_not]
    omega

/-- The search only clears bits of the bitmap: it keeps its presence and its length, and a
cleared bit stays cleared. -/
theorem searchDecodeTarget_bitmap_some {tds : TemplateDependencyStructure}
    {active : Option (List Bool)} {fdc : List Nat} {ff : ForwardedFrames} {ext sp tl : Nat} :
    ∀ (n : Nat) (st st1 : SearchState) (bits : List Bool),
      searchDecodeTarget tds active fdc ff ext sp tl n st = some st1 →
      st.forwardedDecodeTargets = some bits →
      ∃ bits1, st1.forwardedDecodeTargets = some bits1 ∧ bits1.length = bits.length ∧
        (∀ d : Nat, bits[d]? = some false → bits1[d]? = some false) ∧
        (st.needsForwardedDecodeTargets = true → st1.needsForwardedDecodeTargets = true) := by
  intro n
  induction n with
  | zero =>
    intro st st1 bits h hb
    simp only [searchDecodeTarget, Option.some.injEq] at h
    subst h
    exact ⟨bits, hb, rfl, fun _ hd => hd, fun hn => hn⟩
  | succ k ih =>
    intro st st1 bits h hb
    rw [searchDecodeTarget] at h
    split at h
    · cases h
    · rename_i st2 hstep
      simp only [Option.some.injEq] at h
      subst h
      obtain ⟨-, -, hf, hn⟩ := tryDecodeTarget_breakLoop hstep
      exact ⟨bits, hf.trans hb, rfl, fun _ hd => hd, fun h => hn.trans h⟩
    · rename_i st2 hstep
      obtain ⟨-, -, -, hcase⟩ := tryDecodeTarget_continueLoop hstep
      rcases hcase with ⟨-, heq⟩ | ⟨-, bits2, hb1, hlt, hb3, hn2⟩
      · subst heq
        exact ih _ st1 bits h hb
      · rw [hb] at hb1
        cases hb1
        obtain ⟨bits1, h1, h2, h3, h4⟩ := ih st2 st1 _ h hb3
        refine ⟨bits1, h1, by rw [h2, List.length_set], ?_, fun _ => h4 hn2⟩
        intro d hd
        apply h3
        by_cases hdk : k = d
        · subst hdk
          simp [List.getElem?_set, hlt]
        · rw [List.getElem?_set_ne hdk]
          exact hd

/-- When no decode target below `n` exceeds the caps the search leaves the bitmap and the
flag that asks for it untouched. -/
theorem searchDecodeTarget_bitmap_untouched {tds : TemplateDependencyStructure}
    {active : Option (List Bool)} {fdc : List Nat} {ff : ForwardedFrames} {ext sp tl : Nat} :
    ∀ (n : Nat) (st st1 : SearchState),
      searchDecodeTarget tds active fdc ff ext sp tl n st = some st1 →
      (∀ d, d < n → exceedsCaps tds sp tl d = false) →
      st1.forwardedDecodeTargets = st.forwardedDecodeTargets ∧
        st1.needsForwardedDecodeTargets = st.needsForwardedDecodeTargets := by
  intro n
  induction n with
  | zero =>
    intro st st1 h _
    simp only [searchDecodeTarget, Option.some.injEq] at h
    subst h
    exact ⟨rfl, rfl⟩
  | succ k ih =>
    intro st st1 h hall
    rw [searchDecodeTarget] at h
    split at h
    · cases h
    · rename_i st2 hstep
      simp only [Option.some.injEq] at h
      subst h
      obtain ⟨-, -, hf, hn⟩ := tryDecodeTarget_breakLoop hstep
      exact ⟨hf, hn⟩
    · rename_i st2 hstep
      obtain ⟨-, -, -, hcase⟩ := tryDecodeTarget_continueLoop hstep
      rcases hcase with ⟨-, heq⟩ | ⟨hex, -⟩
      · subst heq
        exact ih _ st1 h (fun d hd => hall d (Nat.lt_succ_of_lt hd))
      · rw [hall k (Nat.lt_succ_self k)] at hex
        cases hex

/-- Every decode target that exceeds the caps and lies above all qualifying decode targets
has its bit cleared by the search, and the bitmap is then asked for. -/
theorem searchDecodeTarget_bitmap_cleared {tds : TemplateDependencyStructure}
    {active : Option (List Bool)} {fdc : List Nat} {ff : ForwardedFrames} {ext sp tl : Nat} :
    ∀ (n : Nat) (st st1 : SearchState),
      searchDecodeTarget tds active fdc ff ext sp tl n st = some st1 →
      ∀ d, d < n → exceedsCaps tds sp tl d = true →
        (∀ e, d < e → e < n → qualifies tds active fdc ff ext sp tl e = false) →
        st1.needsForwardedDecodeTargets = true ∧
          ∃ bits1, st1.forwardedDecodeTargets = some bits1 ∧ bits1[d]? = some false := by
  intro n
  induction n with
  | zero =>
    intro st st1 _ d hd
    exact absurd hd (Nat.not_lt_zero d)
  | succ k ih =>
    intro st st1 h d hd hex hnq
    rw [searchDecodeTarget] at h
    split at h
    · cases h
    · rename_i st2 hstep
      obtain ⟨hq, -, -, -⟩ := tryDecodeTarget_breakLoop hstep
      rcases Nat.lt_succ_iff_lt_or_eq.mp hd with hlt | heq
      · rw [hnq k hlt (Nat.lt_succ_self k)] at hq
        cases hq
      · subst heq
        have hw : withinCaps tds sp tl d = true := by
          simp only [qualifies, Bool.and_eq_true] at hq
          exact hq.1.1
        rw [withinCaps_not_exceedsCaps hw] at hex
        cases hex
    · rename_i st2 hstep
      obtain ⟨-, -, -, hcase⟩ := tryDecodeTarget_continueLoop hstep
      rcases Nat.lt_succ_iff_lt_or_eq.mp hd with hlt | heq
      · exact ih st2 st1 h d hlt hex (fun e h1 h2 => hnq e h1 (Nat.lt_succ_of_lt h2))
      · subst heq
        rcases hcase with ⟨hw, -⟩ | ⟨-, bits2, -, hlt, hb3, hn2⟩
        · rw [withinCaps_not_exceedsCaps hw] at hex
          cases hex
        · obtain ⟨bits1, h1, -, h3, h4⟩ := searchDecodeTarget_bitmap_some d st2 st1 _ h hb3
          refine ⟨h4 hn2, bits1, h1, h3 d ?_⟩
          simp [List.getElem?_set, hlt]

/-! ## The phases of Select -/

/-- What is known when lines 28 to 115 do not return: the packet has a descriptor, a structure
and a template, the start up check passed, and the context holds the values of the source. -/
theorem SelectPrologue_proceed {E : Type} [WrapExtender E]
    {s : DependencyDescriptorLayerSelector E} {packet : RTPPacket} {mark : Bool}
    {c : FrameContext E} (h : SelectPrologue s packet mark = Prologue.proceed c) :
    ∃ dd tds tmpl, packet.dependencyDescriptor = some dd ∧
      packet.templateDependencyStructure = some tds ∧
      tds.GetFrameDependencyTemplate dd.frameDependencyTemplateId = some tmpl ∧
      ¬ (s.currentFrameNumber = UINT32_MAX ∧ dd.startOfFrame = false) ∧
      c.dependencyDescriptor = dd ∧ c.templateDependencyStructure = tds ∧
      c.frameDependencyTemplate = tmpl ∧ c.extFrameNum = extFrameNumOf s dd ∧
      c.decodeTargetIndications = effectiveDecodeTargetIndications dd tmpl ∧
      c.frameDiffs = effectiveFrameDiffs dd tmpl ∧
      c.frameDiffsChains = effectiveFrameDiffsChains dd tmpl ∧
      c.self.forwardedFrames = s.forwardedFrames ∧
      c.self.spatialLayerId = s.spatialLayerId ∧ c.self.temporalLayerId = s.temporalLayerId ∧
      c.self.waitingForIntra = s.waitingForIntra ∧
      c.self.forwardedDecodeTargets = s.forwardedDecodeTargets ∧
      c.self.currentFrameNumber = max (extFrameNumOf s dd)
        (if s.currentFrameNumber = UINT32_MAX then extFrameNumOf s dd
          else s.currentFrameNumber) ∧
      c.decodable = checkFrameDiffs s.forwardedFrames (extFrameNumOf s dd)
        (effectiveFrameDiffs dd tmpl)
        (!(decide (extFrameNumOf s dd >
            (if s.currentFrameNumber = UINT32_MAX then extFrameNumOf s dd
              else s.currentFrameNumber)) && !dd.startOfFrame)) := by
  unfold SelectPrologue at h
  split at h
  · cases h
  · rename_i dd hdd
    split at h
    · cases h
    · rename_i tds htds
      dsimp only at h
      split at h
      · cases h
      · rename_i hstart
        split at h
        · cases h
        · rename_i tmpl htmpl
          refine ⟨dd, tds, tmpl, hdd, htds, htmpl, hstart, ?_⟩
          injection h with h
          subst h
          by_cases hcur : s.currentFrameNumber = UINT32_MAX <;> simp [hcur]

/-- A return from lines 28 to 115 rejects the packet and changes neither the ledger, the
caps, the bitmap nor `mark`; `waitingForIntra` is set or left as it was. -/
theorem SelectPrologue_returned {E : Type} [WrapExtender E]
    {s : DependencyDescriptorLayerSelector E} {packet : RTPPacket} {mark : Bool}
    {r : SelectResult E} (h : SelectPrologue s packet mark = Prologue.returned r) :
    r.accept = false ∧ r.mark = mark ∧ r.self.forwardedFrames = s.forwardedFrames ∧
      r.self.spatialLayerId = s.spatialLayerId ∧ r.self.temporalLayerId = s.temporalLayerId ∧
      r.self.forwardedDecodeTargets = s.forwardedDecodeTargets ∧
      (r.self.waitingForIntra = true ∨ r.self.waitingForIntra = s.waitingForIntra) := by
  unfold SelectPrologue at h
  split at h
  · injection h with h
    subst h
    simp [Warning]
  · split at h
    · injection h with h
      subst h
      simp [Warning]
    · dsimp only at h
      split at h
      · injection h with h
        subst h
        simp
      · split at h
        · injection h with h
          subst h
          by_cases hcur : s.currentFrameNumber = UINT32_MAX <;> simp [Warning, hcur]
        · cases h

/-- A defined call of `Select` returns from its first part, or goes through the search and
the last part. -/
theorem Select_some {E : Type} [WrapExtender E]
    {s : DependencyDescriptorLayerSelector E} {packet : RTPPacket} {mark : Bool}
    {r : SelectResult E} (h : Select s packet mark = some r) :
    SelectPrologue s packet mark = Prologue.returned r ∨
      ∃ c st, SelectPrologue s packet mark = Prologue.proceed c ∧
        SelectDecodeTarget c packet.activeDecodeTargets = some st ∧
        SelectEpilogue c packet mark st = some r := by
  unfold Select at h
  split at h
  · rename_i r1 h1
    injection h with h
    subst h
    exact Or.inl h1
  · rename_i c h1
    split at h
    · cases h
    · rename_i st h2
      exact Or.inr ⟨c, st, h1, h2, h⟩

/-- The five ways lines 203 to 263 end. In all of them the caps and `currentFrameNumber` are
kept and the bitmap is the one of the search if it was asked for, else absent. -/
theorem SelectEpilogue_some {E : Type} {c : FrameContext E} {packet : RTPPacket} {mark : Bool}
    {st : SearchState} {r : SelectResult E} (h : SelectEpilogue c packet mark st = some r) :
    (r.self.forwardedDecodeTargets =
        (if st.needsForwardedDecodeTargets then st.forwardedDecodeTargets else none) ∧
      r.self.spatialLayerId = c.self.spatialLayerId ∧
      r.self.temporalLayerId = c.self.temporalLayerId ∧
      r.self.currentFrameNumber = c.self.currentFrameNumber) ∧
    ((r.accept = false ∧ r.mark = mark ∧ r.self.forwardedFrames = c.self.forwardedFrames ∧
        ((st.currentDecodeTarget = NoDecodeTarget ∧ r.self.waitingForIntra = true) ∨
         (st.currentDecodeTarget ≠ NoDecodeTarget ∧
            c.decodeTargetIndications.length < st.currentDecodeTarget ∧
            r.self.waitingForIntra = true) ∨
         (st.currentDecodeTarget ≠ NoDecodeTarget ∧
            c.decodeTargetIndications[st.currentDecodeTarget]? =
              some DecodeTargetIndication.NotPresent ∧
            r.self.waitingForIntra = c.self.waitingForIntra) ∨
         (st.currentDecodeTarget ≠ NoDecodeTarget ∧
            ∃ dti, c.decodeTargetIndications[st.currentDecodeTarget]? = some dti ∧
              dti ≠ DecodeTargetIndication.NotPresent ∧ c.decodable = false ∧
              r.self.waitingForIntra = decide (dti ≠ DecodeTargetIndication.Discardable)))) ∨
     (r.accept = true ∧ st.currentDecodeTarget ≠ NoDecodeTarget ∧ c.decodable = true ∧
        (∃ dti, c.decodeTargetIndications[st.currentDecodeTarget]? = some dti ∧
          dti ≠ DecodeTargetIndication.NotPresent) ∧
        r.mark = (packet.mark || (c.dependencyDescriptor.endOfFrame &&
          decide (c.self.spatialLayerId = c.frameDependencyTemplate.spatialLayerId))) ∧
        r.self.waitingForIntra = false ∧
        r.self.forwardedFrames =
          (if c.dependencyDescriptor.endOfFrame
            then c.self.forwardedFrames.Add c.extFrameNum else c.self.forwardedFrames))) := by
  unfold SelectEpilogue at h
  dsimp only at h
  split at h
  · rename_i h1
    injection h with h
    subst h
    simp [Debug, h1]
  · rename_i h1
    split at h
    · rename_i h2
      injection h with h
      subst h
      simp [Debug, h1, h2]
    · split at h
      · cases h
      · rename_i dti hdti
        split at h
        · rename_i h3
          injection h with h
          subst h
          subst h3
          simp [Warning, h1, hdti]
        · rename_i h3
          split at h
          · rename_i h4
            injection h with h
            subst h
            simp [Warning, h1, hdti, h3, h4]
          · rename_i h4
            injection h with h
            subst h
            cases hd : c.decodable
            · exact absurd hd h4
            · cases he : c.dependencyDescriptor.endOfFrame <;> simp [h1, hdti, h3]

/-- A call that goes through the search is the last part of `Select` on its result. -/
theorem Select_of_proceed {E : Type} [WrapExtender E]
    {s : DependencyDescriptorLayerSelector E} {packet : RTPPacket} {mark : Bool}
    {c : FrameContext E} {st : SearchState}
    (hreach : SelectPrologue s packet mark = Prologue.proceed c)
    (hst : SelectDecodeTarget c packet.activeDecodeTargets = some st) :
    Select s packet mark = SelectEpilogue c packet mark st := by
  unfold Select
  rw [hreach]
  dsimp only
  rw [hst]

/-- For a well-formed structure whose layer ids are bytes the search of `Select` is
defined. -/
theorem SelectDecodeTarget_defined {E : Type} (c : FrameContext E)
    (active : Option (List Bool))
    (hwf : WellFormed c.templateDependencyStructure active c.frameDiffsChains)
    (hbyte : LayerIdsAreBytes c.templateDependencyStructure) :
    ∃ st, SelectDecodeTarget c active = some st := by
  obtain ⟨hmap, hchain, hact⟩ := hwf
  unfold SelectDecodeTarget
  apply searchDecodeTarget_defined
  · exact Nat.le_of_eq hmap.symm
  · intro a ha
    exact Nat.le_of_eq (hact a ha).symm
  · rcases hchain with h | ⟨h1, h2⟩
    · exact Or.inl h
    · exact Or.inr ⟨Nat.le_of_eq h1.symm, h2⟩
  · by_cases hcaps : c.self.spatialLayerId ≠ LayerInfo.MaxLayerId ∨
        c.self.temporalLayerId ≠ LayerInfo.MaxLayerId
    · right
      unfold materialise
      rw [if_pos hcaps]
      cases active with
      | none => exact ⟨_, rfl, by simp⟩
      | some a => exact ⟨a, rfl, Nat.le_of_eq (hact a rfl).symm⟩
    · left
      intro d _
      have h1 : c.self.spatialLayerId = LayerInfo.MaxLayerId := by
        by_contra hne
        exact hcaps (Or.inl hne)
      have h2 : c.self.temporalLayerId = LayerInfo.MaxLayerId := by
        by_contra hne
        exact hcaps (Or.inr hne)
      unfold exceedsCaps
      cases hm : c.templateDependencyStructure.decodeTargetLayerMapping[d]? with
      | none => rfl
      | some layer =>
        have hb := hbyte layer (List.getElem?_mem hm)
        simp only [Bool.or_eq_false_iff, decide_eq_false_iff_not]
        omega

/-- C1: when `Select` reaches the decode target search with a well-formed structure, the
search is defined; if some decode target qualifies (within the caps, active, chain intact
with respect to the ledger before the call) the chosen decode target is the greatest
qualifying one, and if none qualifies `Select` returns `accept = false` with
`waitingForIntra = true`. -/
theorem Select_chooses_greatest_qualifying_decode_target {E : Type} [WrapExtender E]
    (s : DependencyDescriptorLayerSelector E) (packet : RTPPacket) (mark : Bool)
    (c : FrameContext E)
    (hreach : SelectPrologue s packet mark = Prologue.proceed c)
    (hwf : WellFormed c.templateDependencyStructure packet.activeDecodeTargets
      c.frameDiffsChains)
    (hbyte : LayerIdsAreBytes c.templateDependencyStructure) :
    ∃ st, SelectDecodeTarget c packet.activeDecodeTargets = some st ∧
      ((∃ d, d < c.templateDependencyStructure.dtsCount ∧
          qualifies c.templateDependencyStructure packet.activeDecodeTargets
            c.frameDiffsChains s.forwardedFrames c.extFrameNum s.spatialLayerId
            s.temporalLayerId d = true) →
        st.currentDecodeTarget < c.templateDependencyStructure.dtsCount ∧
        qualifies c.templateDependencyStructure packet.activeDecodeTargets
          c.frameDiffsChains s.forwardedFrames c.extFrameNum s.spatialLayerId
          s.temporalLayerId st.currentDecodeTarget = true ∧
        ∀ d, st.currentDecodeTarget < d → d < c.templateDependencyStructure.dtsCount →
          qualifies c.templateDependencyStructure packet.activeDecodeTargets
            c.frameDiffsChains s.forwardedFrames c.extFrameNum s.spatialLayerId
            s.temporalLayerId d = false) ∧
      ((∀ d, d < c.templateDependencyStructure.dtsCount →
          qualifies c.templateDependencyStructure packet.activeDecodeTargets
            c.frameDiffsChains s.forwardedFrames c.extFrameNum s.spatialLayerId
            s.temporalLayerId d = false) →
        ∃ r, Select s packet mark = some r ∧ r.accept = false ∧
          r.self.waitingForIntra = true) := by
  obtain ⟨st, hst⟩ := SelectDecodeTarget_defined c packet.activeDecodeTargets hwf hbyte
  obtain ⟨dd, tds, tmpl, -, -, -, -, -, -, -, -, -, -, -, hff, hsp, htl, -⟩ :=
    SelectPrologue_proceed hreach
  refine ⟨st, hst, ?_, ?_⟩
  · rintro ⟨d, hd, hq⟩
    have hg := searchDecodeTarget_greatest _ _ _ hst
    rw [hff, hsp, htl] at hg
    rcases hg with h | ⟨-, -, h⟩
    · exact h
    · rw [h d hd] at hq
      cases hq
  · intro hnone
    have hg := searchDecodeTarget_greatest _ _ _ hst
    rw [hff, hsp, htl] at hg
    have hcdt : st.currentDecodeTarget = NoDecodeTarget := by
      rcases hg with ⟨h1, h2, -⟩ | ⟨h, -, -⟩
      · rw [hnone _ h1] at h2
        cases h2
      · exact h
    have hsel := Select_of_proceed hreach hst
    unfold SelectEpilogue at hsel
    dsimp only at hsel
    rw [if_pos hcdt] at hsel
    exact ⟨_, hsel, rfl, rfl⟩

/-- C1 at the intra packet of the toy stream on a fresh selector: the top decode target 1 is
chosen. -/
theorem Select_chooses_greatest_qualifying_decode_target_witness :
    SelectPrologue Toy.fresh (Toy.packet 10 0 true true false) false =
        Prologue.proceed Toy.context10 ∧
      WellFormed Toy.context10.templateDependencyStructure
        (Toy.packet 10 0 true true false).activeDecodeTargets Toy.context10.frameDiffsChains ∧
      LayerIdsAreBytes Toy.context10.templateDependencyStructure ∧
      ∃ st, SelectDecodeTarget Toy.context10
          (Toy.packet 10 0 true true false).activeDecodeTargets = some st ∧
        st.currentDecodeTarget = 1 :=
  ⟨rfl, by decide, by decide, by
    obtain ⟨st, h1, h2, -⟩ := Select_chooses_greatest_qualifying_decode_target Toy.fresh
      (Toy.packet 10 0 true true false) false Toy.context10 rfl (by decide) (by decide)
    refine ⟨st, h1, ?_⟩
    have h3 : SelectDecodeTarget Toy.context10
        (Toy.packet 10 0 true true false).activeDecodeTargets =
        some ⟨0, 1, none, false⟩ := by decide
    rw [h3] at h1
    injection h1 with h1
    rw [← h1]⟩

/-! ## The frame diff check and the ledger -/

/-- When the loop over the frame diffs ends with `decodable`, it started with `decodable` and
every referenced frame other than the frame itself is in the ledger. -/
theorem checkFrameDiffs_true {ff : ForwardedFrames} {ext : Nat} :
    ∀ (l : List Nat) (b : Bool), checkFrameDiffs ff ext l b = true →
      b = true ∧ ∀ d ∈ l, sub64 ext d ≠ ext → ff.Contains (sub64 ext d) = true := by
  intro l
  induction l with
  | nil =>
    intro b h
    exact ⟨h, fun d hd => absurd hd (List.not_mem_nil d)⟩
  | cons x rest ih =>
    intro b h
    unfold checkFrameDiffs at h
    cases b with
    | false => simp at h
    | true =>
      refine ⟨rfl, ?_⟩
      simp only [if_true] at h
      by_cases hne : sub64 ext x ≠ ext
      · rw [if_pos hne] at h
        obtain ⟨h1, h2⟩ := ih _ h
        intro d hd hd2
        rcases List.mem_cons.mp hd with heq | hmem
        · rw [heq]; exact h1
        · exact h2 d hmem hd2
      · rw [if_neg hne] at h
        obtain ⟨-, h2⟩ := ih _ h
        intro d hd hd2
        rcases List.mem_cons.mp hd with heq | hmem
        · rw [heq] at hd2; exact absurd hd2 hne
        · exact h2 d hmem hd2

theorem ForwardedFrames.Contains_Add (l : ForwardedFrames) (m n : Nat) :
    (l.Add m).Contains n = true ↔ n = m ∨ l.Contains n = true := by
  simp [ForwardedFrames.Add, ForwardedFrames.Contains]

/-- The ledger after a defined call of `Select` is the one the specification prescribes. -/
theorem Select_ledger {E : Type} [WrapExtender E]
    {s : DependencyDescriptorLayerSelector E} {packet : RTPPacket} {mark : Bool}
    {r : SelectResult E} (h : Select s packet mark = some r) :
    r.self.forwardedFrames = ledgerAfter s packet r.accept := by
  rcases Select_some h with hret | ⟨c, st, hreach, -, hepi⟩
  · obtain ⟨hacc, -, hff, -⟩ := SelectPrologue_returned hret
    rw [hff, hacc]
    unfold ledgerAfter
    split <;> simp
  · obtain ⟨dd, tds, tmpl, hdd, -, -, -, hcdd, -, -, hext, -, -, -, hff, -⟩ :=
      SelectPrologue_proceed hreach
    obtain ⟨-, hcase⟩ := SelectEpilogue_some hepi
    unfold ledgerAfter
    rw [hdd]
    dsimp only
    rcases hcase with ⟨hacc, -, hl, -⟩ | ⟨hacc, -, -, -, -, -, hl⟩
    · rw [hl, hacc, hff]
      simp
    · rw [hl, hacc, hff, hcdd, hext]
      simp

/-- C2: an accepted packet only references forwarded frames. When `Select` returns
`accept = true`, every entry `d` of the effective frame diffs with
`extFrameNum - d != extFrameNum` references a frame that is in the ledger as it was before
the call. -/
theorem Select_accept_references_forwarded {E : Type} [WrapExtender E]
    (s : DependencyDescriptorLayerSelector E) (packet : RTPPacket) (mark : Bool)
    (r : SelectResult E) (h : Select s packet mark = some r) (hacc : r.accept = true) :
    ∃ dd tds tmpl, packet.dependencyDescriptor = some dd ∧
      packet.templateDependencyStructure = some tds ∧
      tds.GetFrameDependencyTemplate dd.frameDependencyTemplateId = some tmpl ∧
      ∀ d ∈ effectiveFrameDiffs dd tmpl, sub64 (extFrameNumOf s dd) d ≠ extFrameNumOf s dd →
        s.forwardedFrames.Contains (sub64 (extFrameNumOf s dd) d) = true := by
  rcases Select_some h with hret | ⟨c, st, hreach, -, hepi⟩
  · obtain ⟨hrej, -⟩ := SelectPrologue_returned hret
    rw [hrej] at hacc
    cases hacc
  · obtain ⟨dd, tds, tmpl, hdd, htds, htmpl, -, -, -, -, -, -, -, -, -, -, -, -, -, -, hdec⟩ :=
      SelectPrologue_proceed hreach
    obtain ⟨-, hcase⟩ := SelectEpilogue_some hepi
    refine ⟨dd, tds, tmpl, hdd, htds, htmpl, ?_⟩
    rcases hcase with ⟨hrej, -⟩ | ⟨-, -, hd, -⟩
    · rw [hrej] at hacc
      cases hacc
    · rw [hdec] at hd
      exact (checkFrameDiffs_true _ _ hd).2

/-- C2 at the packet of frame 11 of the toy stream (it references frame 10) after frame 10 was
forwarded. -/
theorem Select_accept_references_forwarded_witness :
    ∃ r, Select Toy.after10 (Toy.packet 11 1 true true false) false = some r ∧
      r.accept = true ∧
      ∃ dd tds tmpl, (Toy.packet 11 1 true true false).dependencyDescriptor = some dd ∧
        (Toy.packet 11 1 true true false).templateDependencyStructure = some tds ∧
        tds.GetFrameDependencyTemplate dd.frameDependencyTemplateId = some tmpl ∧
        ∀ d ∈ effectiveFrameDiffs dd tmpl,
          sub64 (extFrameNumOf Toy.after10 dd) d ≠ extFrameNumOf Toy.after10 dd →
          Toy.after10.forwardedFrames.Contains (sub64 (extFrameNumOf Toy.after10 dd) d) = true :=
  ⟨(Select Toy.after10 (Toy.packet 11 1 true true false) false).get (by decide),
    (Option.some_get _).symm, by decide,
    Select_accept_references_forwarded Toy.after10 (Toy.packet 11 1 true true false) false _
      (Option.some_get (by decide)).symm (by decide)⟩

/-- The observation of a call tells whether the ledger grew: it did by `n` exactly when an
`endOfFrame` packet of frame `n` was accepted. -/
theorem ledgerAfter_Contains {E : Type} [WrapExtender E]
    (s : DependencyDescriptorLayerSelector E) (packet : RTPPacket) (mark : Bool)
    (r : SelectResult E) (h : Select s packet mark = some r) (n : Nat) :
    (ledgerAfter s packet r.accept).Contains n = true ↔
      s.forwardedFrames.Contains n = true ∨ acceptedEndOfFrame (observe s packet r.accept) n := by
  unfold ledgerAfter observe acceptedEndOfFrame
  cases hdd : packet.dependencyDescriptor with
  | none => simp
  | some dd =>
    cases htds : packet.templateDependencyStructure with
    | none =>
      have hret : SelectPrologue s packet mark =
          Prologue.returned ⟨{ s with waitingForIntra := true }, Warning, mark⟩ := by
        unfold SelectPrologue
        rw [hdd]
        dsimp only
        rw [htds]
      have hr : Select s packet mark =
          some ⟨{ s with waitingForIntra := true }, Warning, mark⟩ := by
        unfold Select
        rw [hret]
      rw [hr] at h
      injection h with h
      subst h
      simp [Warning]
    | some tds =>
      dsimp only
      by_cases hc : (r.accept && dd.endOfFrame) = true
      · rw [if_pos hc, ForwardedFrames.Contains_Add]
        simp only [Bool.and_eq_true] at hc
        simp only [List.mem_singleton, exists_eq_left, hc.1, hc.2, true_and]
        constructor
        · rintro (h1 | h1)
          · exact Or.inr h1.symm
          · exact Or.inl h1
        · rintro (h1 | h1)
          · exact Or.inr h1
          · exact Or.inl h1.symm
      · rw [if_neg hc]
        simp only [Bool.and_eq_true, not_and, Bool.not_eq_true] at hc
        simp only [List.mem_singleton, exists_eq_left]
        constructor
        · intro h1
          exact Or.inl h1
        · rintro (h1 | ⟨h1, h2, -⟩)
          · exact h1
          · rw [hc h1] at h2
            cases h2

/-- Along a sequence of calls the ledger is the ledger at the start plus the frames whose
`endOfFrame` packet was accepted. -/
theorem run_ledger {E : Type} [WrapExtender E] :
    ∀ (calls : List Call) (s s1 : DependencyDescriptorLayerSelector E)
      (log log1 : List Observation),
      run calls s log = some (s1, log1) →
      (∀ n, s.forwardedFrames.Contains n = true ↔ acceptedEndOfFrame log n) →
      ∀ n, s1.forwardedFrames.Contains n = true ↔ acceptedEndOfFrame log1 n := by
  intro calls
  induction calls with
  | nil =>
    intro s s1 log log1 h hinv
    simp only [run, Option.some.injEq, Prod.mk.injEq] at h
    rw [← h.1, ← h.2]
    exact hinv
  | cons call rest ih =>
    intro s s1 log log1 h hinv
    cases call with
    | select packet mark =>
      simp only [run] at h
      split at h
      · cases h
      · rename_i r hr
        apply ih _ _ _ _ h
        intro n
        rw [Select_ledger hr, ledgerAfter_Contains s packet mark r hr n, hinv n]
        unfold acceptedEndOfFrame
        simp only [List.mem_append]
        constructor
        · rintro (⟨o, ho, hp⟩ | ⟨o, ho, hp⟩)
          · exact ⟨o, Or.inl ho, hp⟩
          · exact ⟨o, Or.inr ho, hp⟩
        · rintro ⟨o, ho | ho, hp⟩
          · exact Or.inl ⟨o, ho, hp⟩
          · exact Or.inr ⟨o, ho, hp⟩
    | selectSpatialLayer id =>
      simp only [run] at h
      exact ih _ _ _ _ h hinv
    | selectTemporalLayer id =>
      simp only [run] at h
      exact ih _ _ _ _ h hinv

/-- C3: the ledger records exactly the accepted `endOfFrame` packets. After a call of
`Select` the ledger is the ledger before plus `extFrameNum` when the call accepted an
`endOfFrame` packet and the ledger before in every other case; and after every sequence of
calls from a fresh selector the ledger holds exactly the extended frame numbers for which
`Select` accepted an `endOfFrame` packet. -/
theorem ledger_records_accepted_endOfFrame {E : Type} [WrapExtender E] :
    (∀ (s : DependencyDescriptorLayerSelector E) (packet : RTPPacket) (mark : Bool)
        (r : SelectResult E), Select s packet mark = some r →
        (∀ dd, packet.dependencyDescriptor = some dd → r.accept = true →
          dd.endOfFrame = true →
          r.self.forwardedFrames = s.forwardedFrames.Add (extFrameNumOf s dd)) ∧
        ((r.accept = false ∨ ∀ dd, packet.dependencyDescriptor = some dd →
            dd.endOfFrame = false) →
          r.self.forwardedFrames = s.forwardedFrames)) ∧
    (∀ (codec : Nat) (extender : E) (calls : List Call)
        (s1 : DependencyDescriptorLayerSelector E) (log1 : List Observation),
        run calls (construct codec extender) [] = some (s1, log1) →
        ∀ n, s1.forwardedFrames.Contains n = true ↔ acceptedEndOfFrame log1 n) := by
  constructor
  · intro s packet mark r h
    have hl := Select_ledger h
    unfold ledgerAfter at hl
    constructor
    · intro dd hdd hacc heof
      rw [hdd] at hl
      simpa [hacc, heof] using hl
    · intro hcase
      cases hdd : packet.dependencyDescriptor with
      | none =>
        rw [hdd] at hl
        exact hl
      | some dd =>
        rw [hdd] at hl
        rcases hcase with hrej | hne
        · simpa [hrej] using hl
        · simpa [hne dd hdd] using hl
  · intro codec extender calls s1 log1 h
    apply run_ledger calls _ s1 [] log1 h
    intro n
    simp [construct, ForwardedFrames.Contains, acceptedEndOfFrame]

/-- C3 at the toy stream: the accepted intra packet of frame 10 adds 10 to the ledger of a
fresh selector, and after the reordered sequence the ledger is what the log tells. -/
theorem ledger_records_accepted_endOfFrame_witness :
    (∃ r, Select Toy.fresh (Toy.packet 10 0 true true false) false = some r ∧
      r.accept = true ∧ r.self.forwardedFrames = Toy.fresh.forwardedFrames.Add 10) ∧
    (∃ s1 log1, run Toy.reordered Toy.fresh [] = some (s1, log1) ∧
      ∀ n, s1.forwardedFrames.Contains n = true ↔ acceptedEndOfFrame log1 n) := by
  have h1 : (Select Toy.fresh (Toy.packet 10 0 true true false) false).isSome = true := by
    decide
  have h2 : (run Toy.reordered Toy.fresh []).isSome = true := by decide
  obtain ⟨r, hr⟩ := Option.isSome_iff_exists.mp h1
  obtain ⟨x, hx⟩ := Option.isSome_iff_exists.mp h2
  have hacc : r.accept = true := by
    have h3 : (Select Toy.fresh (Toy.packet 10 0 true true false) false).map
        (fun r => r.accept) = some true := by decide
    rw [hr] at h3
    exact Option.some.inj h3
  exact ⟨⟨r, hr, hacc,
      ((@ledger_records_accepted_endOfFrame IdentityExtender _).1 Toy.fresh
        (Toy.packet 10 0 true true false) false r hr).1 _ rfl hacc rfl⟩,
    ⟨x.1, x.2, hx,
      (@ledger_records_accepted_endOfFrame IdentityExtender _).2 0 ⟨0⟩ Toy.reordered x.1 x.2
        hx⟩⟩

/-- C4, the code at two failing inputs. From a fresh selector, the first packet of frame 11
is rejected (frame 10 has not arrived), frame 10 is accepted, then the last packet of frame
11 is accepted and 11 enters the ledger. From a selector whose current frame is 10, a packet
from the middle of frame 11 is rejected as an incomplete frame, then the last packet of
frame 11 is accepted and 11 enters the ledger. In both sequences the ledger holds frame 11
although a packet of frame 11 was rejected. -/
theorem ledger_holds_frame_with_rejected_packet :
    (run Toy.reordered Toy.fresh []).map
        (fun x => (x.1.forwardedFrames.Contains 11, x.2)) =
      some (true, [⟨11, false, false⟩, ⟨10, true, true⟩, ⟨11, true, true⟩]) ∧
    (run Toy.midFrame Toy.started10 []).map
        (fun x => (x.1.forwardedFrames.Contains 11, x.2)) =
      some (true, [⟨11, false, false⟩, ⟨11, true, true⟩]) := by
  constructor <;> decide

/-- C5: the marker rewrite. An accepted packet has a descriptor, a structure and a template,
and the returned mark is `packet.mark OR (dd.endOfFrame AND requested spatial cap ==
spatialLayerId of the template)`; in particular with spatial cap 0 an accepted `endOfFrame`
packet of an S0 template is returned with the mark set, whatever its mark was. -/
theorem Select_mark_formula {E : Type} [WrapExtender E]
    (s : DependencyDescriptorLayerSelector E) (packet : RTPPacket) (mark : Bool)
    (r : SelectResult E) (h : Select s packet mark = some r) (hacc : r.accept = true) :
    ∃ dd tds tmpl, packet.dependencyDescriptor = some dd ∧
      packet.templateDependencyStructure = some tds ∧
      tds.GetFrameDependencyTemplate dd.frameDependencyTemplateId = some tmpl ∧
      r.mark = (packet.mark ||
        (dd.endOfFrame && decide (s.spatialLayerId = tmpl.spatialLayerId))) ∧
      (s.spatialLayerId = 0 → tmpl.spatialLayerId = 0 → dd.endOfFrame = true →
        r.mark = true) := by
  rcases Select_some h with hret | ⟨c, st, hreach, -, hepi⟩
  · obtain ⟨hrej, -⟩ := SelectPrologue_returned hret
    rw [hrej] at hacc
    cases hacc
  · obtain ⟨dd, tds, tmpl, hdd, htds, htmpl, -, hcdd, -, hctmpl, -, -, -, -, -, hsp, -⟩ :=
      SelectPrologue_proceed hreach
    obtain ⟨-, hcase⟩ := SelectEpilogue_some hepi
    rcases hcase with ⟨hrej, -⟩ | ⟨-, -, -, -, hmark, -⟩
    · rw [hrej] at hacc
      cases hacc
    · rw [hcdd, hctmpl, hsp] at hmark
      refine ⟨dd, tds, tmpl, hdd, htds, htmpl, hmark, ?_⟩
      intro h0 h1 heof
      rw [hmark, h0, h1, heof]
      simp

/-- C5 at the toy stream with spatial cap 0: the last packet of frame 11 arrives with mark 0
and is returned with mark 1. -/
theorem Select_mark_formula_witness :
    ∃ r, Select (Toy.after10.SelectSpatialLayer 0) (Toy.packet 11 1 true true false) false =
        some r ∧ r.accept = true ∧ r.mark = true ∧
      ∃ dd tds tmpl, (Toy.packet 11 1 true true false).dependencyDescriptor = some dd ∧
        (Toy.packet 11 1 true true false).templateDependencyStructure = some tds ∧
        tds.GetFrameDependencyTemplate dd.frameDependencyTemplateId = some tmpl ∧
        r.mark = ((Toy.packet 11 1 true true false).mark ||
          (dd.endOfFrame &&
            decide ((Toy.after10.SelectSpatialLayer 0).spatialLayerId = tmpl.spatialLayerId))) ∧
        ((Toy.after10.SelectSpatialLayer 0).spatialLayerId = 0 → tmpl.spatialLayerId = 0 →
          dd.endOfFrame = true → r.mark = true) :=
  ⟨(Select (Toy.after10.SelectSpatialLayer 0) (Toy.packet 11 1 true true false) false).get
      (by decide),
    (Option.some_get _).symm, by decide, by decide,
    Select_mark_formula (Toy.after10.SelectSpatialLayer 0) (Toy.packet 11 1 true true false)
      false _ (Option.some_get (by decide)).symm (by decide)⟩

theorem sub64_zero {a : Nat} (h : a < UINT64_MOD) : sub64 a 0 = a := by
  unfold sub64
  have h0 : (0 : Nat) % UINT64_MOD = 0 := Nat.zero_mod _
  rw [h0, Nat.sub_zero, Nat.mod_eq_of_lt h, Nat.add_mod_right, Nat.mod_eq_of_lt h]

theorem extFrameNumOf_lt {E : Type} [WrapExtender E] (s : DependencyDescriptorLayerSelector E)
    (dd : DependencyDescriptor) : extFrameNumOf s dd < UINT64_MOD := by
  unfold extFrameNumOf
  exact Nat.mod_lt _ (by decide)

/-- A qualifying decode target ends the search: the iteration that examines it ends with
`break`. -/
theorem tryDecodeTarget_of_qualifies {tds : TemplateDependencyStructure}
    {active : Option (List Bool)} {fdc : List Nat} {ff : ForwardedFrames} {ext sp tl d : Nat}
    (st : SearchState) (h : qualifies tds active fdc ff ext sp tl d = true) :
    ∃ st1, tryDecodeTarget tds active fdc ff ext sp tl d st = LoopStep.breakLoop st1 := by
  simp only [qualifies, Bool.and_eq_true, isActive_eq_true_iff] at h
  obtain ⟨⟨hw, ha⟩, hc⟩ := h
  unfold withinCaps at hw
  unfold chainIntact at hc
  unfold tryDecodeTarget
  cases hm : tds.decodeTargetLayerMapping[d]? with
  | none => rw [hm] at hw; cases hw
  | some layer =>
    rw [hm] at hw
    simp only [Bool.and_eq_true, decide_eq_true_eq] at hw
    simp only [ha, hw, and_self, if_true]
    by_cases hempty : tds.decodeTargetProtectedByChain.isEmpty = true
    · rw [if_pos hempty]
      exact ⟨_, rfl⟩
    · rw [if_neg hempty]
      simp only [hempty, Bool.false_or] at hc
      cases hp : tds.decodeTargetProtectedByChain[d]? with
      | none => rw [hp] at hc; cases hc
      | some chain =>
        rw [hp] at hc
        dsimp only at hc
        have hlen : ¬ tds.decodeTargetProtectedByChain.length < d := by
          have := (List.getElem?_eq_some.mp hp).1
          omega
        rw [if_neg hlen]
        dsimp only
        cases hf : fdc[chain]? with
        | none => rw [hf] at hc; cases hc
        | some diff =>
          rw [hf] at hc
          dsimp only at hc
          have hlen2 : ¬ fdc.length < chain := by
            have := (List.getElem?_eq_some.mp hf).1
            omega
          rw [if_neg hlen2]
          dsimp only
          simp only [Bool.or_eq_true, beq_iff_eq] at hc
          have hbroken : ¬ (sub64 ext diff ≠ 0 ∧ sub64 ext diff ≠ ext ∧
              ff.Contains (sub64 ext diff) = false) := by
            rintro ⟨h1, h2, h3⟩
            rcases hc with (h | h) | h
            · exact h1 h
            · exact h2 h
            · rw [h3] at h; cases h
          rw [if_neg hbroken]
          exact ⟨_, rfl⟩

/-- Lines 28 to 115 go on to the search when the packet has a descriptor, a structure and a
template and the start up check passes. -/
theorem SelectPrologue_proceed_of {E : Type} [WrapExtender E]
    (s : DependencyDescriptorLayerSelector E) (packet : RTPPacket) (mark : Bool)
    {dd : DependencyDescriptor} {tds : TemplateDependencyStructure}
    {tmpl : FrameDependencyTemplate}
    (hdd : packet.dependencyDescriptor = some dd)
    (htds : packet.templateDependencyStructure = some tds)
    (htmpl : tds.GetFrameDependencyTemplate dd.frameDependencyTemplateId = some tmpl)
    (hstart : ¬ (s.currentFrameNumber = UINT32_MAX ∧ dd.startOfFrame = false)) :
    ∃ c, SelectPrologue s packet mark = Prologue.proceed c := by
  unfold SelectPrologue
  rw [hdd]
  dsimp only
  rw [htds]
  dsimp only
  rw [if_neg hstart, htmpl]
  exact ⟨_, rfl⟩

/-- The last part of `Select` accepts when a decode target was chosen, its indication is
there and is not `NotPresent`, and the frame is decodable. -/
theorem SelectEpilogue_accept {E : Type} (c : FrameContext E) (packet : RTPPacket)
    (mark : Bool) (st : SearchState) {dti : DecodeTargetIndication}
    (hcdt : st.currentDecodeTarget ≠ NoDecodeTarget)
    (hdti : c.decodeTargetIndications[st.currentDecodeTarget]? = some dti)
    (hpresent : dti ≠ DecodeTargetIndication.NotPresent) (hdec : c.decodable = true) :
    ∃ r, SelectEpilogue c packet mark st = some r ∧ r.accept = true := by
  unfold SelectEpilogue
  dsimp only
  have hlen : ¬ c.decodeTargetIndications.length < st.currentDecodeTarget := by
    have := (List.getElem?_eq_some.mp hdti).1
    omega
  rw [if_neg hcdt, if_neg hlen, hdti]
  dsimp only
  rw [if_neg hpresent, if_neg (by rw [hdec]; exact Bool.noConfusion)]
  exact ⟨_, rfl, rfl⟩

/-- C6, counterexample: on a fresh selector with caps `MaxLayerId/MaxLayerId` the single
packet intra frame 10 of the toy stream, which arrives with mark 0, is accepted and returned
with mark 0, not 1; the same holds when the selector starts with the value
`std::numeric_limits<uint32_t>::max()` that line 56 tests for. -/
theorem cold_start_intra_mark_not_set :
    (Select Toy.fresh (Toy.packet 10 0 true true false) false).map
        (fun r => (r.accept, r.mark)) = some (true, false) ∧
      (Select { Toy.fresh with currentFrameNumber := UINT32_MAX }
          (Toy.packet 10 0 true true false) false).map
        (fun r => (r.accept, r.mark)) = some (true, false) := by
  decide

/-- C6, amended: with caps `MaxLayerId/MaxLayerId` (as on a fresh selector) a single packet
intra frame (first and last packet of its frame, RTP mark 0, no frame diffs, the top decode
target active with chain diff 0 and an indication other than `NotPresent`) is accepted, the
returned mark is set only when the spatial layer of its template is `MaxLayerId`, the frame
enters the ledger and `waitingForIntra` is false afterwards. -/
theorem cold_start_intra_accepted {E : Type} [WrapExtender E]
    (s : DependencyDescriptorLayerSelector E) (packet : RTPPacket) (mark : Bool)
    (dd : DependencyDescriptor) (tds : TemplateDependencyStructure)
    (tmpl : FrameDependencyTemplate) (top : Nat) (layer : LayerInfo)
    (dti : DecodeTargetIndication)
    (hsp : s.spatialLayerId = LayerInfo.MaxLayerId)
    (htl : s.temporalLayerId = LayerInfo.MaxLayerId)
    (hcount : tds.dtsCount ≤ UINT32_MAX)
    (hdd : packet.dependencyDescriptor = some dd)
    (htds : packet.templateDependencyStructure = some tds)
    (htmpl : tds.GetFrameDependencyTemplate dd.frameDependencyTemplateId = some tmpl)
    (hstart : dd.startOfFrame = true) (hend : dd.endOfFrame = true)
    (hmark : packet.mark = false)
    (hdiffs : effectiveFrameDiffs dd tmpl = [])
    (htop : tds.dtsCount = top + 1)
    (hlayer : tds.decodeTargetLayerMapping[top]? = some layer)
    (hbyte : layer.spatialLayerId ≤ LayerInfo.MaxLayerId ∧
      layer.temporalLayerId ≤ LayerInfo.MaxLayerId)
    (hactive : isActive packet.activeDecodeTargets top = true)
    (hchain : tds.decodeTargetProtectedByChain = [] ∨
      ∃ chain, tds.decodeTargetProtectedByChain[top]? = some chain ∧
        (effectiveFrameDiffsChains dd tmpl)[chain]? = some 0)
    (hdti : (effectiveDecodeTargetIndications dd tmpl)[top]? = some dti)
    (hpresent : dti ≠ DecodeTargetIndication.NotPresent) :
    ∃ r, Select s packet mark = some r ∧ r.accept = true ∧
      r.mark = decide (tmpl.spatialLayerId = LayerInfo.MaxLayerId) ∧
      r.self.waitingForIntra = false ∧
      r.self.forwardedFrames = s.forwardedFrames.Add (extFrameNumOf s dd) := by
  have hstart1 : ¬ (s.currentFrameNumber = UINT32_MAX ∧ dd.startOfFrame = false) := by
    rw [hstart]
    rintro ⟨-, h⟩
    cases h
  obtain ⟨c, hreach⟩ := SelectPrologue_proceed_of s packet mark hdd htds htmpl hstart1
  obtain ⟨dd1, tds1, tmpl1, hdd1, htds1, htmpl1, -, hcdd, hctds, hctmpl, hext, hcdti, -,
    hcfdc, hff, hcsp, hctl, -, -, -, hdec⟩ := SelectPrologue_proceed hreach
  rw [hdd] at hdd1
  cases hdd1
  rw [htds] at htds1
  cases htds1
  rw [htmpl] at htmpl1
  cases htmpl1
  have hdecodable : c.decodable = true := by
    rw [hdec, hdiffs, hstart]
    simp [checkFrameDiffs]
  have hq : qualifies tds packet.activeDecodeTargets (effectiveFrameDiffsChains dd tmpl)
      s.forwardedFrames (extFrameNumOf s dd) s.spatialLayerId s.temporalLayerId top = true := by
    simp only [qualifies, Bool.and_eq_true]
    refine ⟨⟨?_, hactive⟩, ?_⟩
    · unfold withinCaps
      rw [hlayer, hsp, htl]
      simp only [Bool.and_eq_true, decide_eq_true_eq]
      exact hbyte
    · unfold chainIntact
      rcases hchain with h | ⟨chain, h1, h2⟩
      · simp [h]
      · rw [h1]
        dsimp only
        rw [h2]
        dsimp only
        rw [sub64_zero (extFrameNumOf_lt s dd)]
        simp
  have hsearch : ∃ st, SelectDecodeTarget c packet.activeDecodeTargets = some st ∧
      st.currentDecodeTarget = top := by
    unfold SelectDecodeTarget
    rw [hctds, hcfdc, hff, hext, hcsp, hctl, htop, searchDecodeTarget]
    obtain ⟨st1, hst1⟩ := tryDecodeTarget_of_qualifies
      { currentChain := NoChain
        currentDecodeTarget := NoDecodeTarget
        forwardedDecodeTargets := materialise c.self (top + 1) packet.activeDecodeTargets
        needsForwardedDecodeTargets := false } hq
    rw [hst1]
    exact ⟨st1, rfl, (tryDecodeTarget_breakLoop hst1).2.1⟩
  obtain ⟨st, hst, hcdt⟩ := hsearch
  have hne : st.currentDecodeTarget ≠ NoDecodeTarget := by
    rw [hcdt]
    unfold NoDecodeTarget
    omega
  have hdti1 : c.decodeTargetIndications[st.currentDecodeTarget]? = some dti := by
    rw [hcdti, hcdt]
    exact hdti
  obtain ⟨r, hr, hacc⟩ := SelectEpilogue_accept c packet mark st hne hdti1 hpresent hdecodable
  obtain ⟨-, hcase⟩ := SelectEpilogue_some hr
  refine ⟨r, (Select_of_proceed hreach hst).trans hr, hacc, ?_⟩
  rcases hcase with ⟨hrej, -⟩ | ⟨-, -, -, -, hm, hw, hl⟩
  · rw [hrej] at hacc
    cases hacc
  · refine ⟨?_, hw, ?_⟩
    · rw [hm, hmark, hcdd, hend, hctmpl, hcsp, hsp]
      simp only [Bool.false_or, Bool.true_and]
      exact decide_eq_decide.mpr ⟨fun h => h.symm, fun h => h.symm⟩
    · rw [hl, hcdd, hend, hff, hext]
      rfl

/-- C6, amended, at the intra packet of frame 10 of the toy stream on a fresh selector. -/
theorem cold_start_intra_accepted_witness :
    ∃ r, Select Toy.fresh (Toy.packet 10 0 true true false) false = some r ∧
      r.accept = true ∧
      r.mark = decide (Toy.template0.spatialLayerId = LayerInfo.MaxLayerId) ∧
      r.self.waitingForIntra = false ∧
      r.self.forwardedFrames =
        Toy.fresh.forwardedFrames.Add (extFrameNumOf Toy.fresh (Toy.descriptor 10 0 true true)) :=
  cold_start_intra_accepted Toy.fresh (Toy.packet 10 0 true true false) false
    (Toy.descriptor 10 0 true true) Toy.tds Toy.template0 1
    { temporalLayerId := 1, spatialLayerId := 0 }
    DecodeTargetIndication.Switch rfl rfl (by decide) rfl rfl rfl rfl rfl rfl rfl rfl rfl
    (by decide) (by decide) (Or.inr ⟨0, rfl, rfl⟩) rfl (by decide)

/-! ## The projected bitmap -/

/-- Without caps no decode target whose layer ids are bytes exceeds the caps. -/
theorem exceedsCaps_MaxLayerId {tds : TemplateDependencyStructure}
    (hbyte : LayerIdsAreBytes tds) (d : Nat) :
    exceedsCaps tds LayerInfo.MaxLayerId LayerInfo.MaxLayerId d = false := by
  unfold exceedsCaps
  cases hm : tds.decodeTargetLayerMapping[d]? with
  | none => rfl
  | some layer =>
    have hb := hbyte layer (List.getElem?_mem hm)
    simp only [Bool.or_eq_false_iff, decide_eq_false_iff_not]
    omega

/-- C7, counterexample: with spatial cap 1 and temporal cap 0 the key frame of the stream
with decode targets `(S0,T0)`, `(S0,T1)`, `(S1,T0)`, `(S1,T1)` leaves the bitmap
`[true, true, true, false]`: decode target 1 exceeds the temporal cap and is still `true`,
because the search stopped at decode target 2. -/
theorem projection_keeps_target_below_choice :
    (Select Toy.capped Toy.keyPacket false).map (fun r => r.self.forwardedDecodeTargets) =
        some (some [true, true, true, false]) ∧
      exceedsCaps Toy.l2t2 Toy.capped.spatialLayerId Toy.capped.temporalLayerId 1 = true := by
  decide

/-- C7, amended: after a call of `Select` that reaches the decode target search (the active
decode targets of the packet absent or of length `dtsCount`), if `forwardedDecodeTargets` is
present then it has exactly `dtsCount` entries and is `false` at every decode target that
exceeds the requested caps and lies above every qualifying decode target, that is, above the
chosen decode target, or anywhere when none was chosen. -/
theorem forwardedDecodeTargets_projection {E : Type} [WrapExtender E]
    (s : DependencyDescriptorLayerSelector E) (packet : RTPPacket) (mark : Bool)
    (c : FrameContext E) (r : SelectResult E) (bits : List Bool)
    (hreach : SelectPrologue s packet mark = Prologue.proceed c)
    (h : Select s packet mark = some r)
    (hact : ∀ a ∈ packet.activeDecodeTargets, a.length = c.templateDependencyStructure.dtsCount)
    (hbyte : LayerIdsAreBytes c.templateDependencyStructure)
    (hbits : r.self.forwardedDecodeTargets = some bits) :
    bits.length = c.templateDependencyStructure.dtsCount ∧
      ∀ d, d < c.templateDependencyStructure.dtsCount →
        exceedsCaps c.templateDependencyStructure s.spatialLayerId s.temporalLayerId d = true →
        (∀ e, d < e → e < c.templateDependencyStructure.dtsCount →
          qualifies c.templateDependencyStructure packet.activeDecodeTargets
            c.frameDiffsChains s.forwardedFrames c.extFrameNum s.spatialLayerId
            s.temporalLayerId e = false) →
        bits[d]? = some false := by
  rcases Select_some h with hret | ⟨c1, st, hreach1, hst, hepi⟩
  · rw [hreach] at hret
    cases hret
  · rw [hreach] at hreach1
    injection hreach1 with hc
    subst hc
    obtain ⟨dd, tds, tmpl, -, -, -, -, -, -, -, -, -, -, -, hff, hsp, htl, -⟩ :=
      SelectPrologue_proceed hreach
    obtain ⟨⟨hfdt, -⟩, -⟩ := SelectEpilogue_some hepi
    rw [hbits] at hfdt
    have hneeds : st.needsForwardedDecodeTargets = true := by
      cases hn : st.needsForwardedDecodeTargets with
      | true => rfl
      | false =>
        rw [hn] at hfdt
        cases hfdt
    rw [hneeds, if_pos rfl] at hfdt
    unfold SelectDecodeTarget at hst
    by_cases hcaps : c.self.spatialLayerId ≠ LayerInfo.MaxLayerId ∨
        c.self.temporalLayerId ≠ LayerInfo.MaxLayerId
    · have hmat : ∃ bits0, materialise c.self c.templateDependencyStructure.dtsCount
          packet.activeDecodeTargets = some bits0 ∧
          bits0.length = c.templateDependencyStructure.dtsCount := by
        unfold materialise
        rw [if_pos hcaps]
        cases hactive : packet.activeDecodeTargets with
        | none => exact ⟨_, rfl, by simp⟩
        | some a => exact ⟨a, rfl, hact a hactive⟩
      obtain ⟨bits0, hm0, hlen0⟩ := hmat
      obtain ⟨bits1, hb1, hlen1, -, -⟩ := searchDecodeTarget_bitmap_some _ _ _ bits0 hst hm0
      rw [hb1] at hfdt
      injection hfdt with hfdt
      subst hfdt
      refine ⟨hlen1.trans hlen0, ?_⟩
      intro d hd hex hnq
      rw [← hsp, ← htl] at hex
      rw [← hff, ← hsp, ← htl] at hnq
      obtain ⟨-, bits2, hb2, hfalse⟩ := searchDecodeTarget_bitmap_cleared _ _ _ hst d hd hex hnq
      rw [hb1] at hb2
      injection hb2 with hb2
      rw [hb2]
      exact hfalse
    · have h1 : c.self.spatialLayerId = LayerInfo.MaxLayerId := by
        by_contra hne
        exact hcaps (Or.inl hne)
      have h2 : c.self.temporalLayerId = LayerInfo.MaxLayerId := by
        by_contra hne
        exact hcaps (Or.inr hne)
      rw [h1, h2] at hst
      obtain ⟨-, hn⟩ := searchDecodeTarget_bitmap_untouched _ _ _ hst
        (fun d _ => exceedsCaps_MaxLayerId hbyte d)
      rw [hneeds] at hn
      cases hn

/-- C7, amended, at the toy stream with temporal cap 0: the packet of frame 11 leaves the
bitmap `[true, false]`. -/
theorem forwardedDecodeTargets_projection_witness :
    ∃ r, Select (Toy.after10.SelectTemporalLayer 0) (Toy.packet 11 1 true true false) false =
        some r ∧
      r.self.forwardedDecodeTargets = some [true, false] ∧
      [true, false].length = Toy.context11.templateDependencyStructure.dtsCount ∧
      ∀ d, d < Toy.context11.templateDependencyStructure.dtsCount →
        exceedsCaps Toy.context11.templateDependencyStructure
          (Toy.after10.SelectTemporalLayer 0).spatialLayerId
          (Toy.after10.SelectTemporalLayer 0).temporalLayerId d = true →
        (∀ e, d < e → e < Toy.context11.templateDependencyStructure.dtsCount →
          qualifies Toy.context11.templateDependencyStructure
            (Toy.packet 11 1 true true false).activeDecodeTargets
            Toy.context11.frameDiffsChains (Toy.after10.SelectTemporalLayer 0).forwardedFrames
            Toy.context11.extFrameNum (Toy.after10.SelectTemporalLayer 0).spatialLayerId
            (Toy.after10.SelectTemporalLayer 0).temporalLayerId e = false) →
        [true, false][d]? = some false := by
  have h1 : (Select (Toy.after10.SelectTemporalLayer 0) (Toy.packet 11 1 true true false)
      false).isSome = true := by decide
  obtain ⟨r, hr⟩ := Option.isSome_iff_exists.mp h1
  have hb : r.self.forwardedDecodeTargets = some [true, false] := by
    have h2 : (Select (Toy.after10.SelectTemporalLayer 0) (Toy.packet 11 1 true true false)
        false).map (fun r => r.self.forwardedDecodeTargets) = some (some [true, false]) := by
      decide
    rw [hr] at h2
    exact Option.some.inj h2
  exact ⟨r, hr, hb,
    forwardedDecodeTargets_projection (Toy.after10.SelectTemporalLayer 0)
      (Toy.packet 11 1 true true false) false Toy.context11 r [true, false] rfl hr
      (by decide) (by decide) hb⟩

/-- C8, counterexample: the temporal cap is set to 0, the intra packet of frame 10 is
selected (the bitmap becomes `[true, false]`), the cap is reset to `MaxLayerId`, and a packet
without descriptor is rejected at line 39: the caps are `MaxLayerId/MaxLayerId` and the
bitmap is still `[true, false]` after the call. -/
theorem stale_bitmap_survives_early_return :
    (run (Toy.capReset.take 3) Toy.fresh []).map (fun x => x.1) = some Toy.stale ∧
      (Select Toy.stale Toy.bare false).map
          (fun r => (r.self.spatialLayerId, r.self.temporalLayerId,
            r.self.forwardedDecodeTargets)) =
        some (LayerInfo.MaxLayerId, LayerInfo.MaxLayerId, some [true, false]) ∧
      (run Toy.capReset Toy.fresh []).map
          (fun x => (x.1.spatialLayerId, x.1.temporalLayerId, x.1.forwardedDecodeTargets)) =
        some (LayerInfo.MaxLayerId, LayerInfo.MaxLayerId, some [true, false]) := by
  decide

/-- C8, amended: when the caps are `MaxLayerId/MaxLayerId` at a call of `Select`, the bitmap
is absent after a call that reaches the decode target search, and is what it was before
after a call that returns earlier (missing descriptor or structure, start up, unknown
template). -/
theorem forwardedDecodeTargets_without_caps {E : Type} [WrapExtender E]
    (s : DependencyDescriptorLayerSelector E) (packet : RTPPacket) (mark : Bool)
    (r : SelectResult E) (h : Select s packet mark = some r)
    (hsp : s.spatialLayerId = LayerInfo.MaxLayerId)
    (htl : s.temporalLayerId = LayerInfo.MaxLayerId) :
    (∀ c, SelectPrologue s packet mark = Prologue.proceed c →
        LayerIdsAreBytes c.templateDependencyStructure →
        r.self.forwardedDecodeTargets = none) ∧
      (∀ r1, SelectPrologue s packet mark = Prologue.returned r1 →
        r.self.forwardedDecodeTargets = s.forwardedDecodeTargets) := by
  constructor
  · intro c hreach hbyte
    rcases Select_some h with hret | ⟨c1, st, hreach1, hst, hepi⟩
    · rw [hreach] at hret
      cases hret
    · rw [hreach] at hreach1
      injection hreach1 with hc
      subst hc
      obtain ⟨dd, tds, tmpl, -, -, -, -, -, -, -, -, -, -, -, -, hcsp, hctl, -⟩ :=
        SelectPrologue_proceed hreach
      obtain ⟨⟨hfdt, -⟩, -⟩ := SelectEpilogue_some hepi
      unfold SelectDecodeTarget at hst
      rw [hcsp, hctl, hsp, htl] at hst
      obtain ⟨-, hn⟩ := searchDecodeTarget_bitmap_untouched _ _ _ hst
        (fun d _ => exceedsCaps_MaxLayerId hbyte d)
      rw [hfdt, hn]
      rfl
  · intro r1 hret
    rcases Select_some h with hret1 | ⟨c1, st, hreach1, -, -⟩
    · exact (SelectPrologue_returned hret1).2.2.2.2.2.1
    · rw [hret] at hreach1
      cases hreach1

/-- C8, amended, at the toy stream: without caps the intra packet of frame 10 leaves no
bitmap on a selector that had one, and a packet without descriptor leaves the bitmap that
was there. -/
theorem forwardedDecodeTargets_without_caps_witness :
    (∃ r, Select Toy.stale (Toy.packet 10 0 true true false) false = some r ∧
      r.self.forwardedDecodeTargets = none) ∧
    (∃ r, Select Toy.stale Toy.bare false = some r ∧
      r.self.forwardedDecodeTargets = Toy.stale.forwardedDecodeTargets) := by
  have h1 : (Select Toy.stale (Toy.packet 10 0 true true false) false).isSome = true := by
    decide
  have h2 : (Select Toy.stale Toy.bare false).isSome = true := by decide
  obtain ⟨r1, hr1⟩ := Option.isSome_iff_exists.mp h1
  obtain ⟨r2, hr2⟩ := Option.isSome_iff_exists.mp h2
  obtain ⟨c, hc⟩ := @SelectPrologue_proceed_of IdentityExtender _ Toy.stale
    (Toy.packet 10 0 true true false) false (Toy.descriptor 10 0 true true) Toy.tds
    Toy.template0 rfl rfl rfl (by decide)
  have htds : c.templateDependencyStructure = Toy.tds := by
    obtain ⟨dd, tds, tmpl, -, htds, -, -, -, hctds, -⟩ := SelectPrologue_proceed hc
    rw [hctds]
    exact (Option.some.inj htds).symm
  exact ⟨⟨r1, hr1,
      (forwardedDecodeTargets_without_caps Toy.stale (Toy.packet 10 0 true true false) false
        r1 hr1 rfl rfl).1 c hc (by rw [htds]; decide)⟩,
    ⟨r2, hr2,
      (forwardedDecodeTargets_without_caps Toy.stale Toy.bare false r2 hr2 rfl rfl).2 _ rfl⟩⟩

/-! ## The intra request -/

/-- C9, counterexample: after the intra packet of frame 10 and a packet without descriptor
the selector waits for an intra frame; the packet of frame 12 with `Discardable` indications
and a missing referenced frame is then rejected and `waitingForIntra` is false afterwards. -/
theorem rejection_clears_waitingForIntra :
    (run [Call.select (Toy.packet 10 0 true true false) false, Call.select Toy.bare false]
        Toy.fresh []).map (fun x => x.1) = some Toy.waiting ∧
      Toy.waiting.waitingForIntra = true ∧
      (Select Toy.waiting Toy.discardable12 false).map
        (fun r => (r.accept, r.self.waitingForIntra)) = some (false, false) := by
  decide

/-- C9, amended: when `waitingForIntra` is true before and false after a call of `Select`,
the call accepted the packet, or it rejected at line 241 a frame that is not decodable and
whose indication for the chosen decode target is `Discardable`; `SelectSpatialLayer` and
`SelectTemporalLayer` never change `waitingForIntra`. -/
theorem waitingForIntra_cleared_only_by {E : Type} [WrapExtender E] :
    (∀ (s : DependencyDescriptorLayerSelector E) (packet : RTPPacket) (mark : Bool)
        (r : SelectResult E), Select s packet mark = some r →
        s.waitingForIntra = true → r.self.waitingForIntra = false →
        r.accept = true ∨
          (r.accept = false ∧ ∃ c st, SelectPrologue s packet mark = Prologue.proceed c ∧
            SelectDecodeTarget c packet.activeDecodeTargets = some st ∧
            st.currentDecodeTarget ≠ NoDecodeTarget ∧ c.decodable = false ∧
            c.decodeTargetIndications[st.currentDecodeTarget]? =
              some DecodeTargetIndication.Discardable)) ∧
    (∀ (s : DependencyDescriptorLayerSelector E) (id : Nat),
        (s.SelectSpatialLayer id).waitingForIntra = s.waitingForIntra ∧
        (s.SelectTemporalLayer id).waitingForIntra = s.waitingForIntra) := by
  constructor
  · intro s packet mark r h hbefore hafter
    rcases Select_some h with hret | ⟨c, st, hreach, hst, hepi⟩
    · obtain ⟨-, -, -, -, -, -, hw⟩ := SelectPrologue_returned hret
      rw [hafter, hbefore] at hw
      rcases hw with hw | hw <;> cases hw
    · obtain ⟨dd, tds, tmpl, -, -, -, -, -, -, -, -, -, -, -, -, -, -, hcw, -⟩ :=
        SelectPrologue_proceed hreach
      obtain ⟨-, hcase⟩ := SelectEpilogue_some hepi
      rcases hcase with ⟨hrej, -, -, hw⟩ | ⟨hacc, -⟩
      · right
        refine ⟨hrej, c, st, hreach, hst, ?_⟩
        rcases hw with ⟨-, hw⟩ | ⟨-, -, hw⟩ | ⟨-, -, hw⟩ | ⟨hne, dti, hdti, -, hdec, hw⟩
        · rw [hafter] at hw
          cases hw
        · rw [hafter] at hw
          cases hw
        · rw [hafter, hcw, hbefore] at hw
          cases hw
        · refine ⟨hne, hdec, ?_⟩
          rw [hafter] at hw
          have hd : dti = DecodeTargetIndication.Discardable := by
            by_contra hnd
            rw [decide_eq_true hnd] at hw
            cases hw
          rw [hdti, hd]
      · exact Or.inl hacc
  · intro s id
    exact ⟨rfl, rfl⟩

/-- C9, amended, at the toy stream: the rejected `Discardable` packet of frame 12 clears
`waitingForIntra` through line 241. -/
theorem waitingForIntra_cleared_only_by_witness :
    ∃ r, Select Toy.waiting Toy.discardable12 false = some r ∧
      Toy.waiting.waitingForIntra = true ∧ r.self.waitingForIntra = false ∧
      (r.accept = true ∨
        (r.accept = false ∧ ∃ c st,
          SelectPrologue Toy.waiting Toy.discardable12 false = Prologue.proceed c ∧
          SelectDecodeTarget c Toy.discardable12.activeDecodeTargets = some st ∧
          st.currentDecodeTarget ≠ NoDecodeTarget ∧ c.decodable = false ∧
          c.decodeTargetIndications[st.currentDecodeTarget]? =
            some DecodeTargetIndication.Discardable)) := by
  have h1 : (Select Toy.waiting Toy.discardable12 false).isSome = true := by decide
  obtain ⟨r, hr⟩ := Option.isSome_iff_exists.mp h1
  have hw : r.self.waitingForIntra = false := by
    have h2 : (Select Toy.waiting Toy.discardable12 false).map
        (fun r => r.self.waitingForIntra) = some false := by decide
    rw [hr] at h2
    exact Option.some.inj h2
  exact ⟨r, hr, rfl, hw,
    (@waitingForIntra_cleared_only_by IdentityExtender _).1 Toy.waiting Toy.discardable12
      false r hr rfl hw⟩

/-- C10: when `Select` reaches the gate on the decode target indication and the indication of
the chosen decode target is `NotPresent`, it returns `accept = false`, and `waitingForIntra`
and the ledger are what they were before the call, whether the frame is decodable or not. -/
theorem Select_NotPresent_rejects_silently {E : Type} [WrapExtender E]
    (s : DependencyDescriptorLayerSelector E) (packet : RTPPacket) (mark : Bool)
    (c : FrameContext E) (st : SearchState)
    (hreach : SelectPrologue s packet mark = Prologue.proceed c)
    (hst : SelectDecodeTarget c packet.activeDecodeTargets = some st)
    (hchosen : st.currentDecodeTarget ≠ NoDecodeTarget)
    (hdti : c.decodeTargetIndications[st.currentDecodeTarget]? =
      some DecodeTargetIndication.NotPresent) :
    ∃ r, Select s packet mark = some r ∧ r.accept = false ∧
      r.self.waitingForIntra = s.waitingForIntra ∧
      r.self.forwardedFrames = s.forwardedFrames := by
  obtain ⟨dd, tds, tmpl, -, -, -, -, -, -, -, -, -, -, -, hff, -, -, hcw, -⟩ :=
    SelectPrologue_proceed hreach
  have hlen : ¬ c.decodeTargetIndications.length < st.currentDecodeTarget := by
    have := (List.getElem?_eq_some.mp hdti).1
    omega
  have hsel := Select_of_proceed hreach hst
  unfold SelectEpilogue at hsel
  dsimp only at hsel
  rw [if_neg hchosen, if_neg hlen, hdti] at hsel
  dsimp only at hsel
  rw [if_pos rfl] at hsel
  exact ⟨_, hsel, rfl, hcw, hff⟩

/-- C10 at the toy stream with temporal cap 0: decode target 0 is chosen for the packet of
frame 11, whose indication for it is `NotPresent`. -/
theorem Select_NotPresent_rejects_silently_witness :
    SelectDecodeTarget Toy.context11 (Toy.packet 11 1 true true false).activeDecodeTargets =
        some Toy.search11 ∧
      Toy.context11.decodeTargetIndications[Toy.search11.currentDecodeTarget]? =
        some DecodeTargetIndication.NotPresent ∧
      ∃ r, Select (Toy.after10.SelectTemporalLayer 0) (Toy.packet 11 1 true true false) false =
          some r ∧ r.accept = false ∧
        r.self.waitingForIntra = (Toy.after10.SelectTemporalLayer 0).waitingForIntra ∧
        r.self.forwardedFrames = (Toy.after10.SelectTemporalLayer 0).forwardedFrames :=
  ⟨by decide, by decide,
    Select_NotPresent_rejects_silently (Toy.after10.SelectTemporalLayer 0)
      (Toy.packet 11 1 true true false) false Toy.context11 Toy.search11 rfl (by decide)
      (by decide) (by decide)⟩

/-! ## Missing dependencies -/

/-- A referenced frame other than the frame itself that is not in the ledger makes the loop
over the frame diffs end without `decodable`. -/
theorem checkFrameDiffs_missing {ff : ForwardedFrames} {ext : Nat} {l : List Nat} (b : Bool)
    (h : ∃ d ∈ l, sub64 ext d ≠ ext ∧ ff.Contains (sub64 ext d) = false) :
    checkFrameDiffs ff ext l b = false := by
  obtain ⟨d, hd, hne, hc⟩ := h
  cases hr : checkFrameDiffs ff ext l b with
  | false => rfl
  | true =>
    have := (checkFrameDiffs_true l b hr).2 d hd hne
    rw [hc] at this
    cases this

/-- C11, counterexample: on a selector that has forwarded frame 10 the packet of frame 12 of
the toy stream with all indications overridden to `Discardable` references frame 11, which is
not in the ledger, and the previous frame of its chain, frame 11, is not in the ledger
either: no decode target is chosen and the packet is rejected with `waitingForIntra = true`
although its indications are `Discardable`. -/
theorem broken_chain_requests_intra_for_discardable :
    (Select Toy.started10 Toy.discardableBroken12 false).map
        (fun r => (r.accept, r.self.waitingForIntra)) = some (false, true) ∧
      Toy.started10.forwardedFrames.Contains 11 = false ∧
      effectiveDecodeTargetIndications (Toy.discardableDescriptor none) Toy.template1 =
        [DecodeTargetIndication.Discardable, DecodeTargetIndication.Discardable] := by
  decide

/-- C11, amended: a packet with a known template that gets past the start up check and
references a frame other than itself that is not in the ledger is rejected and the ledger is
unchanged; `waitingForIntra` is true afterwards when no decode target was chosen (every
candidate has a broken chain) or the indications have no entry for the chosen one, unchanged
when the indication of the chosen decode target is `NotPresent`, and otherwise true if and
only if that indication is not `Discardable`: with a chosen decode target whose indication
is `Discardable` the packet is rejected with `waitingForIntra = false`. -/
theorem missing_reference_rejects {E : Type} [WrapExtender E]
    (s : DependencyDescriptorLayerSelector E) (packet : RTPPacket) (mark : Bool)
    (c : FrameContext E) (r : SelectResult E)
    (hreach : SelectPrologue s packet mark = Prologue.proceed c)
    (hmissing : ∃ d ∈ c.frameDiffs, sub64 c.extFrameNum d ≠ c.extFrameNum ∧
      s.forwardedFrames.Contains (sub64 c.extFrameNum d) = false)
    (h : Select s packet mark = some r) :
    r.accept = false ∧ r.self.forwardedFrames = s.forwardedFrames ∧
      ∃ st, SelectDecodeTarget c packet.activeDecodeTargets = some st ∧
        (st.currentDecodeTarget = NoDecodeTarget → r.self.waitingForIntra = true) ∧
        (st.currentDecodeTarget ≠ NoDecodeTarget →
          c.decodeTargetIndications.length < st.currentDecodeTarget →
          r.self.waitingForIntra = true) ∧
        (st.currentDecodeTarget ≠ NoDecodeTarget →
          ∀ dti, c.decodeTargetIndications[st.currentDecodeTarget]? = some dti →
            (dti = DecodeTargetIndication.NotPresent →
              r.self.waitingForIntra = s.waitingForIntra) ∧
            (dti ≠ DecodeTargetIndication.NotPresent →
              (r.self.waitingForIntra = true ↔ dti ≠ DecodeTargetIndication.Discardable)) ∧
            (dti = DecodeTargetIndication.Discardable →
              r.self.waitingForIntra = false)) := by
  rcases Select_some h with hret | ⟨c1, st, hreach1, hst, hepi⟩
  · rw [hreach] at hret
    cases hret
  · rw [hreach] at hreach1
    injection hreach1 with hc
    subst hc
    obtain ⟨dd, tds, tmpl, -, -, -, -, -, -, -, hext, -, hfd, -, hff, -, -, hcw, -, -, hdec⟩ :=
      SelectPrologue_proceed hreach
    have hnd : c.decodable = false := by
      rw [hdec]
      apply checkFrameDiffs_missing
      rw [← hfd, ← hext]
      exact hmissing
    obtain ⟨-, hcase⟩ := SelectEpilogue_some hepi
    rcases hcase with ⟨hrej, -, hl, hw⟩ | ⟨-, -, hd, -⟩
    · refine ⟨hrej, hl.trans hff, st, hst, ?_, ?_, ?_⟩
      · intro hno
        rcases hw with ⟨-, hw⟩ | ⟨hne, -⟩ | ⟨hne, -⟩ | ⟨hne, -⟩
        · exact hw
        · exact absurd hno hne
        · exact absurd hno hne
        · exact absurd hno hne
      · intro hne hlen
        have hnone : c.decodeTargetIndications[st.currentDecodeTarget]? = none :=
          List.getElem?_eq_none (Nat.le_of_lt hlen)
        rcases hw with ⟨hno, -⟩ | ⟨-, -, hw⟩ | ⟨-, hdti, -⟩ | ⟨-, dti, hdti, -⟩
        · exact absurd hno hne
        · exact hw
        · rw [hnone] at hdti
          cases hdti
        · rw [hnone] at hdti
          cases hdti
      · intro hne dti hdti
        rcases hw with ⟨hno, -⟩ | ⟨-, hlen, -⟩ | ⟨-, hdti1, hw⟩ | ⟨-, dti1, hdti1, hnp, -, hw⟩
        · exact absurd hno hne
        · rw [List.getElem?_eq_none (Nat.le_of_lt hlen)] at hdti
          cases hdti
        · rw [hdti] at hdti1
          injection hdti1 with hdti1
          subst hdti1
          refine ⟨fun _ => hw.trans hcw, fun hnp => absurd rfl hnp, fun hd => ?_⟩
          cases hd
        · rw [hdti] at hdti1
          injection hdti1 with hdti1
          subst hdti1
          refine ⟨fun hp => absurd hp hnp, fun _ => ?_, fun hd => ?_⟩
          · rw [hw]
            simp
          · rw [hw]
            simp [hd]
    · rw [hnd] at hd
      cases hd

/-- C11, amended, at the toy stream: the packet of frame 12 with `Discardable` indications
whose chain is intact (its previous frame is frame 10) and which references the missing
frame 11 is rejected with `waitingForIntra = false`. -/
theorem missing_reference_rejects_witness :
    ∃ r, Select Toy.started10 Toy.discardable12 false = some r ∧
      (∃ d ∈ Toy.context12.frameDiffs,
        sub64 Toy.context12.extFrameNum d ≠ Toy.context12.extFrameNum ∧
        Toy.started10.forwardedFrames.Contains (sub64 Toy.context12.extFrameNum d) = false) ∧
      r.accept = false ∧ r.self.forwardedFrames = Toy.started10.forwardedFrames ∧
      r.self.waitingForIntra = false := by
  have h1 : (Select Toy.started10 Toy.discardable12 false).isSome = true := by decide
  obtain ⟨r, hr⟩ := Option.isSome_iff_exists.mp h1
  have hm : ∃ d ∈ Toy.context12.frameDiffs,
      sub64 Toy.context12.extFrameNum d ≠ Toy.context12.extFrameNum ∧
      Toy.started10.forwardedFrames.Contains (sub64 Toy.context12.extFrameNum d) = false :=
    ⟨1, by decide, by decide, by decide⟩
  obtain ⟨hacc, hl, st, hst, -, -, hdti⟩ := missing_reference_rejects Toy.started10
    Toy.discardable12 false Toy.context12 r rfl hm hr
  have hst1 : SelectDecodeTarget Toy.context12 Toy.discardable12.activeDecodeTargets =
      some ⟨0, 1, none, false⟩ := by decide
  rw [hst1] at hst
  injection hst with hst
  subst hst
  exact ⟨r, hr, hm, hacc, hl, (hdti (by decide) DecodeTargetIndication.Discardable rfl).2.2 rfl⟩

/-! ## Start up and early returns -/

/-- C13: a packet with a descriptor and a structure that gets past the start up check and
whose template id has no template in the structure is rejected, and `waitingForIntra`, the
ledger and `forwardedDecodeTargets` are what they were before the call. -/
theorem unknown_template_rejected {E : Type} [WrapExtender E]
    (s : DependencyDescriptorLayerSelector E) (packet : RTPPacket) (mark : Bool)
    (dd : DependencyDescriptor) (tds : TemplateDependencyStructure)
    (hdd : packet.dependencyDescriptor = some dd)
    (htds : packet.templateDependencyStructure = some tds)
    (hstart : ¬ (s.currentFrameNumber = UINT32_MAX ∧ dd.startOfFrame = false))
    (hunknown : tds.ContainsFrameDependencyTemplate dd.frameDependencyTemplateId = false) :
    ∃ r, Select s packet mark = some r ∧ r.accept = false ∧
      r.self.waitingForIntra = s.waitingForIntra ∧
      r.self.forwardedFrames = s.forwardedFrames ∧
      r.self.forwardedDecodeTargets = s.forwardedDecodeTargets := by
  have hnone : tds.GetFrameDependencyTemplate dd.frameDependencyTemplateId = none := by
    unfold TemplateDependencyStructure.ContainsFrameDependencyTemplate at hunknown
    cases hg : tds.GetFrameDependencyTemplate dd.frameDependencyTemplateId with
    | none => rfl
    | some t =>
      rw [hg] at hunknown
      cases hunknown
  have hsel : ∃ r, Select s packet mark = some r ∧
      SelectPrologue s packet mark = Prologue.returned r ∧
      r.self.waitingForIntra = s.waitingForIntra := by
    unfold Select SelectPrologue
    rw [hdd]
    dsimp only
    rw [htds]
    dsimp only
    rw [if_neg hstart, hnone]
    refine ⟨_, rfl, rfl, ?_⟩
    dsimp only
    split <;> rfl
  obtain ⟨r, hr, hret, hw⟩ := hsel
  obtain ⟨hacc, -, hff, -, -, hfdt, -⟩ := SelectPrologue_returned hret
  exact ⟨r, hr, hacc, hw, hff, hfdt⟩

/-- C13 at the toy stream: template 7 is not in the structure. -/
theorem unknown_template_rejected_witness :
    Toy.tds.ContainsFrameDependencyTemplate 7 = false ∧
      ∃ r, Select Toy.stale (Toy.packet 11 7 true true false) false = some r ∧
        r.accept = false ∧ r.self.waitingForIntra = Toy.stale.waitingForIntra ∧
        r.self.forwardedFrames = Toy.stale.forwardedFrames ∧
        r.self.forwardedDecodeTargets = Toy.stale.forwardedDecodeTargets :=
  ⟨by decide,
    unknown_template_rejected Toy.stale (Toy.packet 11 7 true true false) false
      (Toy.descriptor 11 7 true true) Toy.tds rfl rfl (by decide) (by decide)⟩

/-- C17: a packet without dependency descriptor or without template dependency structure is
rejected with `waitingForIntra = true`, and `currentFrameNumber`, the ledger, the caps,
`forwardedDecodeTargets` and the frame number extender are unchanged. -/
theorem missing_descriptor_or_structure_rejected {E : Type} [WrapExtender E]
    (s : DependencyDescriptorLayerSelector E) (packet : RTPPacket) (mark : Bool)
    (h : packet.dependencyDescriptor = none ∨ packet.templateDependencyStructure = none) :
    ∃ r, Select s packet mark = some r ∧ r.accept = false ∧ r.mark = mark ∧
      r.self.waitingForIntra = true ∧
      r.self.currentFrameNumber = s.currentFrameNumber ∧
      r.self.forwardedFrames = s.forwardedFrames ∧
      r.self.spatialLayerId = s.spatialLayerId ∧
      r.self.temporalLayerId = s.temporalLayerId ∧
      r.self.forwardedDecodeTargets = s.forwardedDecodeTargets ∧
      r.self.frameNumberExtender = s.frameNumberExtender ∧
      r.self.codec = s.codec := by
  have hsel : Select s packet mark =
      some ⟨{ s with waitingForIntra := true }, Warning, mark⟩ := by
    unfold Select SelectPrologue
    cases hdd : packet.dependencyDescriptor with
    | none => rfl
    | some dd =>
      rcases h with h | h
      · rw [hdd] at h
        cases h
      · dsimp only
        rw [h]
  exact ⟨_, hsel, rfl, rfl, rfl, rfl, rfl, rfl, rfl, rfl, rfl, rfl⟩

/-- C17 at a packet without descriptor on a selector that has a ledger and a bitmap. -/
theorem missing_descriptor_or_structure_rejected_witness :
    ∃ r, Select Toy.stale Toy.bare true = some r ∧ r.accept = false ∧ r.mark = true ∧
      r.self.waitingForIntra = true ∧
      r.self.currentFrameNumber = Toy.stale.currentFrameNumber ∧
      r.self.forwardedFrames = Toy.stale.forwardedFrames ∧
      r.self.spatialLayerId = Toy.stale.spatialLayerId ∧
      r.self.temporalLayerId = Toy.stale.temporalLayerId ∧
      r.self.forwardedDecodeTargets = Toy.stale.forwardedDecodeTargets ∧
      r.self.frameNumberExtender = Toy.stale.frameNumberExtender ∧
      r.self.codec = Toy.stale.codec :=
  missing_descriptor_or_structure_rejected Toy.stale Toy.bare true (Or.inl rfl)

/-! ## Bounds checks -/

/-- C14, the code at the failing input. With one decode target indication for the two
decode targets of the toy structure, decode target 1 is chosen, the test of line 218
(`size() < currentDecodeTarget`, here `1 < 1`) lets the packet through and line 227 indexes
the indications out of range; with no indication at all (`0 < 1`) the packet is rejected with
`waitingForIntra = true`. -/
theorem short_indications_read_out_of_range :
    Select Toy.fresh (Toy.overridden (some [DecodeTargetIndication.Switch]) none) false =
        none ∧
      (Select Toy.fresh (Toy.overridden (some []) none) false).map
        (fun r => (r.accept, r.self.waitingForIntra)) = some (false, true) := by
  decide

/-- C15, the code at two failing inputs. With a `decodeTargetProtectedByChain` of one entry
for the two decode targets of the toy structure, the test of line 166 (`size() <
decodeTarget`, here `1 < 1`) lets decode target 1 through and line 171 indexes out of range;
with no frame diff of a chain the test of line 174 (`size() < chain`, here `0 < 0`) lets
chain 0 through and line 179 indexes out of range. -/
theorem short_chain_data_read_out_of_range :
    Select Toy.fresh Toy.shortChainsPacket false = none ∧
      Select Toy.fresh (Toy.overridden none (some [])) false = none := by
  decide

/-! ## The current frame number -/

/-- The search leaves the sentinel or a decode target below the number of decode targets it
was started with. -/
theorem searchDecodeTarget_range {tds : TemplateDependencyStructure}
    {active : Option (List Bool)} {fdc : List Nat} {ff : ForwardedFrames} {ext sp tl n : Nat}
    {st st1 : SearchState}
    (h : searchDecodeTarget tds active fdc ff ext sp tl n st = some st1) :
    st1.currentDecodeTarget < n ∨ st1.currentDecodeTarget = st.currentDecodeTarget := by
  rcases searchDecodeTarget_greatest n st st1 h with ⟨h1, -⟩ | ⟨h1, -⟩
  · exact Or.inl h1
  · exact Or.inr h1

/-- The last part of `Select` is defined when no decode target was chosen or the indications
have an entry for the chosen one. -/
theorem SelectEpilogue_defined {E : Type} (c : FrameContext E) (packet : RTPPacket)
    (mark : Bool) (st : SearchState)
    (h : st.currentDecodeTarget = NoDecodeTarget ∨
      st.currentDecodeTarget < c.decodeTargetIndications.length) :
    ∃ r, SelectEpilogue c packet mark st = some r := by
  unfold SelectEpilogue
  dsimp only
  by_cases hno : st.currentDecodeTarget = NoDecodeTarget
  · rw [if_pos hno]
    exact ⟨_, rfl⟩
  · rw [if_neg hno]
    rcases h with h | h
    · exact absurd h hno
    · rw [if_neg (Nat.lt_asymm h), List.getElem?_eq_getElem h]
      dsimp only
      split
      · exact ⟨_, rfl⟩
      · split
        · exact ⟨_, rfl⟩
        · exact ⟨_, rfl⟩

/-- On a well-formed packet `Select` indexes no vector out of range. -/
theorem Select_isSome {E : Type} [WrapExtender E] (s : DependencyDescriptorLayerSelector E)
    (packet : RTPPacket) (mark : Bool) (hwf : WellFormedPacket packet) :
    ∃ r, Select s packet mark = some r := by
  cases hp : SelectPrologue s packet mark with
  | returned r =>
    refine ⟨r, ?_⟩
    unfold Select
    rw [hp]
  | proceed c =>
    obtain ⟨dd, tds, tmpl, hdd, htds, htmpl, -, -, hctds, -, -, hcdti, -, hcfdc, -⟩ :=
      SelectPrologue_proceed hp
    obtain ⟨hw, hbyte, hlen⟩ := hwf dd hdd tds htds tmpl htmpl
    rw [← hctds, ← hcfdc] at hw
    rw [← hctds] at hbyte
    rw [← hctds, ← hcdti] at hlen
    obtain ⟨st, hst⟩ := SelectDecodeTarget_defined c packet.activeDecodeTargets hw hbyte
    have hrange : st.currentDecodeTarget = NoDecodeTarget ∨
        st.currentDecodeTarget < c.decodeTargetIndications.length := by
      have := searchDecodeTarget_range hst
      rw [hlen]
      rcases this with h | h
      · exact Or.inr h
      · exact Or.inl h
    obtain ⟨r, hr⟩ := SelectEpilogue_defined c packet mark st hrange
    exact ⟨r, (Select_of_proceed hp hst).trans hr⟩

theorem checkFrameDiffs_false (ff : ForwardedFrames) (ext : Nat) (l : List Nat) :
    checkFrameDiffs ff ext l false = false := by
  cases l <;> simp [checkFrameDiffs]

/-- C18: a packet of a frame newer than the current frame that is not the first packet of its
frame is never forwarded: whatever the packet carries, a call of `Select` returns
`accept = false` and leaves the ledger unchanged, and on a well-formed packet the call does
return. -/
theorem mid_frame_entry_never_forwarded {E : Type} [WrapExtender E]
    (s : DependencyDescriptorLayerSelector E) (packet : RTPPacket) (mark : Bool)
    (dd : DependencyDescriptor)
    (hdd : packet.dependencyDescriptor = some dd)
    (hnew : extFrameNumOf s dd > s.currentFrameNumber)
    (hstart : dd.startOfFrame = false) :
    (∀ r, Select s packet mark = some r →
        r.accept = false ∧ r.self.forwardedFrames = s.forwardedFrames) ∧
      (WellFormedPacket packet →
        ∃ r, Select s packet mark = some r ∧ r.accept = false ∧
          r.self.forwardedFrames = s.forwardedFrames) := by
  have hall : ∀ r, Select s packet mark = some r →
      r.accept = false ∧ r.self.forwardedFrames = s.forwardedFrames := by
    intro r h
    rcases Select_some h with hret | ⟨c, st, hreach, -, hepi⟩
    · obtain ⟨hacc, -, hff, -⟩ := SelectPrologue_returned hret
      exact ⟨hacc, hff⟩
    · obtain ⟨dd1, tds, tmpl, hdd1, -, -, hs, -, -, -, -, -, -, -, hff, -, -, -, -, -, hdec⟩ :=
        SelectPrologue_proceed hreach
      rw [hdd] at hdd1
      injection hdd1 with hdd1
      subst hdd1
      have hcur : s.currentFrameNumber ≠ UINT32_MAX := fun hc => hs ⟨hc, hstart⟩
      have hnd : c.decodable = false := by
        rw [hdec, if_neg hcur, hstart, decide_eq_true hnew]
        exact checkFrameDiffs_false _ _ _
      obtain ⟨-, hcase⟩ := SelectEpilogue_some hepi
      rcases hcase with ⟨hrej, -, hl, -⟩ | ⟨-, -, hd, -⟩
      · exact ⟨hrej, hl.trans hff⟩
      · rw [hnd] at hd
        cases hd
  refine ⟨hall, ?_⟩
  intro hwf
  obtain ⟨r, hr⟩ := Select_isSome s packet mark hwf
  exact ⟨r, hr, hall r hr⟩

/-- C18 at the toy stream: the selector's current frame is 10 and a packet from the middle of
frame 11 arrives. -/
theorem mid_frame_entry_never_forwarded_witness :
    extFrameNumOf Toy.started10 (Toy.descriptor 11 1 false false) >
        Toy.started10.currentFrameNumber ∧
      WellFormedPacket (Toy.packet 11 1 false false false) ∧
      ∃ r, Select Toy.started10 (Toy.packet 11 1 false false false) false = some r ∧
        r.accept = false ∧ r.self.forwardedFrames = Toy.started10.forwardedFrames :=
  ⟨by decide, by decide,
    (mid_frame_entry_never_forwarded Toy.started10 (Toy.packet 11 1 false false false) false
      (Toy.descriptor 11 1 false false) rfl (by decide) rfl).2 (by decide)⟩

/-- C20: on a well-formed packet every vector index of `Select` is in range, and a decode
target exceeds the caps (so that its bit is written) only when a cap differs from
`MaxLayerId`, in which case the bitmap the search starts with is present and has `dtsCount`
entries. -/
theorem Select_free_of_out_of_range {E : Type} [WrapExtender E]
    (s : DependencyDescriptorLayerSelector E) (packet : RTPPacket) (mark : Bool)
    (hwf : WellFormedPacket packet) :
    (∃ r, Select s packet mark = some r) ∧
      ∀ c, SelectPrologue s packet mark = Prologue.proceed c →
        ∀ d, d < c.templateDependencyStructure.dtsCount →
          exceedsCaps c.templateDependencyStructure s.spatialLayerId s.temporalLayerId d =
            true →
          (s.spatialLayerId ≠ LayerInfo.MaxLayerId ∨
            s.temporalLayerId ≠ LayerInfo.MaxLayerId) ∧
          ∃ bits, materialise c.self c.templateDependencyStructure.dtsCount
              packet.activeDecodeTargets = some bits ∧
            bits.length = c.templateDependencyStructure.dtsCount ∧ d < bits.length := by
  refine ⟨Select_isSome s packet mark hwf, ?_⟩
  intro c hreach d hd hex
  obtain ⟨dd, tds, tmpl, hdd, htds, htmpl, -, -, hctds, -, -, -, -, -, -, hsp, htl, -⟩ :=
    SelectPrologue_proceed hreach
  obtain ⟨⟨-, -, hact⟩, hbyte, -⟩ := hwf dd hdd tds htds tmpl htmpl
  rw [← hctds] at hbyte hact
  have hcaps : s.spatialLayerId ≠ LayerInfo.MaxLayerId ∨
      s.temporalLayerId ≠ LayerInfo.MaxLayerId := by
    by_contra hno
    have h1 : s.spatialLayerId = LayerInfo.MaxLayerId := by
      by_contra hne
      exact hno (Or.inl hne)
    have h2 : s.temporalLayerId = LayerInfo.MaxLayerId := by
      by_contra hne
      exact hno (Or.inr hne)
    rw [h1, h2, exceedsCaps_MaxLayerId hbyte d] at hex
    cases hex
  refine ⟨hcaps, ?_⟩
  unfold materialise
  rw [hsp, htl, if_pos hcaps]
  cases hactive : packet.activeDecodeTargets with
  | none => exact ⟨_, rfl, by simp, by simpa using hd⟩
  | some a =>
    have hl := hact a hactive
    exact ⟨a, rfl, hl, by rw [hl]; exact hd⟩

/-- C20 at the toy stream with temporal cap 0: the packet of frame 11 is well-formed, `Select`
returns, and decode target 1 exceeds the cap. -/
theorem Select_free_of_out_of_range_witness :
    WellFormedPacket (Toy.packet 11 1 true true false) ∧
      (∃ r, Select (Toy.after10.SelectTemporalLayer 0) (Toy.packet 11 1 true true false)
        false = some r) ∧
      exceedsCaps Toy.context11.templateDependencyStructure
        (Toy.after10.SelectTemporalLayer 0).spatialLayerId
        (Toy.after10.SelectTemporalLayer 0).temporalLayerId 1 = true ∧
      ∃ bits, materialise Toy.context11.self Toy.context11.templateDependencyStructure.dtsCount
          (Toy.packet 11 1 true true false).activeDecodeTargets = some bits ∧
        bits.length = Toy.context11.templateDependencyStructure.dtsCount ∧ 1 < bits.length :=
  ⟨by decide,
    (Select_free_of_out_of_range (Toy.after10.SelectTemporalLayer 0)
      (Toy.packet 11 1 true true false) false (by decide)).1,
    by decide,
    ((Select_free_of_out_of_range (Toy.after10.SelectTemporalLayer 0)
      (Toy.packet 11 1 true true false) false (by decide)).2 Toy.context11 rfl 1 (by decide)
      (by decide)).2⟩

/-! ## Resynchronisation on a key frame -/

/-- When every frame diff of a chain is 0 the chain of every decode target of a well-formed
structure is intact: the previous frame of the chain is the frame itself. -/
theorem chainIntact_of_zero {tds : TemplateDependencyStructure} {fdc : List Nat}
    (ff : ForwardedFrames) {ext : Nat} (hext : ext < UINT64_MOD)
    (hchain : tds.decodeTargetProtectedByChain = [] ∨
      (tds.decodeTargetProtectedByChain.length = tds.dtsCount ∧
        ∀ chain ∈ tds.decodeTargetProtectedByChain, chain < fdc.length))
    (hzero : ∀ x ∈ fdc, x = 0) (d : Nat) (hd : d < tds.dtsCount) :
    chainIntact tds fdc ff ext d = true := by
  unfold chainIntact
  rcases hchain with h | ⟨hlen, hidx⟩
  · simp [h]
  · have hd1 : d < tds.decodeTargetProtectedByChain.length := by
      rw [hlen]
      exact hd
    rw [List.getElem?_eq_getElem hd1]
    dsimp only
    have hc := hidx _ (List.getElem_mem hd1)
    rw [List.getElem?_eq_getElem hc]
    dsimp only
    rw [hzero _ (List.getElem_mem hc), sub64_zero hext]
    simp

/-- C19: a packet that starts a frame, has a known template in a well-formed structure, no
effective frame diffs and only zero frame diffs of chains, and whose indication at the
greatest decode target that is within the caps and active is not `NotPresent`, is accepted
in every selector state, and `waitingForIntra` is false afterwards. -/
theorem keyframe_start_resynchronises {E : Type} [WrapExtender E]
    (s : DependencyDescriptorLayerSelector E) (packet : RTPPacket) (mark : Bool)
    (dd : DependencyDescriptor) (tds : TemplateDependencyStructure)
    (tmpl : FrameDependencyTemplate) (d : Nat) (dti : DecodeTargetIndication)
    (hdd : packet.dependencyDescriptor = some dd)
    (htds : packet.templateDependencyStructure = some tds)
    (htmpl : tds.GetFrameDependencyTemplate dd.frameDependencyTemplateId = some tmpl)
    (hwf : WellFormed tds packet.activeDecodeTargets (effectiveFrameDiffsChains dd tmpl))
    (hbyte : LayerIdsAreBytes tds)
    (hcount : tds.dtsCount ≤ UINT32_MAX)
    (hstart : dd.startOfFrame = true)
    (hdiffs : effectiveFrameDiffs dd tmpl = [])
    (hchains : ∀ x ∈ effectiveFrameDiffsChains dd tmpl, x = 0)
    (hbest : greatestWithinCapsAndActive tds packet.activeDecodeTargets s.spatialLayerId
      s.temporalLayerId d)
    (hdti : (effectiveDecodeTargetIndications dd tmpl)[d]? = some dti)
    (hpresent : dti ≠ DecodeTargetIndication.NotPresent) :
    ∃ r, Select s packet mark = some r ∧ r.accept = true ∧
      r.self.waitingForIntra = false := by
  have hstart1 : ¬ (s.currentFrameNumber = UINT32_MAX ∧ dd.startOfFrame = false) := by
    rw [hstart]
    rintro ⟨-, h⟩
    cases h
  obtain ⟨c, hreach⟩ := SelectPrologue_proceed_of s packet mark hdd htds htmpl hstart1
  obtain ⟨dd1, tds1, tmpl1, hdd1, htds1, htmpl1, -, -, hctds, -, hext, hcdti, -,
    hcfdc, hff, hcsp, hctl, -, -, -, hdec⟩ := SelectPrologue_proceed hreach
  rw [hdd] at hdd1
  cases hdd1
  rw [htds] at htds1
  cases htds1
  rw [htmpl] at htmpl1
  cases htmpl1
  have hdecodable : c.decodable = true := by
    rw [hdec, hdiffs, hstart]
    simp [checkFrameDiffs]
  obtain ⟨hd, hw, ha, hgreatest⟩ := hbest
  have hintact : ∀ e, e < tds.dtsCount →
      chainIntact tds (effectiveFrameDiffsChains dd tmpl) s.forwardedFrames
        (extFrameNumOf s dd) e = true :=
    chainIntact_of_zero s.forwardedFrames (extFrameNumOf_lt s dd) hwf.2.1 hchains
  have hq : qualifies tds packet.activeDecodeTargets (effectiveFrameDiffsChains dd tmpl)
      s.forwardedFrames (extFrameNumOf s dd) s.spatialLayerId s.temporalLayerId d = true := by
    simp only [qualifies, Bool.and_eq_true]
    exact ⟨⟨hw, ha⟩, hintact d hd⟩
  have hwf1 : WellFormed c.templateDependencyStructure packet.activeDecodeTargets
      c.frameDiffsChains := by
    rw [hctds, hcfdc]
    exact hwf
  have hbyte1 : LayerIdsAreBytes c.templateDependencyStructure := by
    rw [hctds]
    exact hbyte
  obtain ⟨st, hst⟩ := SelectDecodeTarget_defined c packet.activeDecodeTargets hwf1 hbyte1
  have hg := searchDecodeTarget_greatest _ _ _ hst
  rw [hctds, hcfdc, hff, hext, hcsp, hctl] at hg
  have hcdt : st.currentDecodeTarget = d := by
    rcases hg with ⟨h1, h2, h3⟩ | ⟨-, -, h3⟩
    · rcases Nat.lt_trichotomy st.currentDecodeTarget d with hlt | heq | hgt
      · rw [h3 d hlt hd] at hq
        cases hq
      · exact heq
      · have hnot := hgreatest _ h1 hgt
        simp only [qualifies, Bool.and_eq_true] at h2
        rw [Bool.and_eq_false_iff] at hnot
        rcases hnot with hnot | hnot
        · rw [h2.1.1] at hnot
          cases hnot
        · rw [h2.1.2] at hnot
          cases hnot
    · rw [h3 d hd] at hq
      cases hq
  have hne : st.currentDecodeTarget ≠ NoDecodeTarget := by
    rw [hcdt]
    unfold NoDecodeTarget
    omega
  have hdti1 : c.decodeTargetIndications[st.currentDecodeTarget]? = some dti := by
    rw [hcdti, hcdt]
    exact hdti
  obtain ⟨r, hr, hacc⟩ := SelectEpilogue_accept c packet mark st hne hdti1 hpresent hdecodable
  obtain ⟨-, hcase⟩ := SelectEpilogue_some hr
  refine ⟨r, (Select_of_proceed hreach hst).trans hr, hacc, ?_⟩
  rcases hcase with ⟨hrej, -⟩ | ⟨-, -, -, -, -, hwait, -⟩
  · rw [hrej] at hacc
    cases hacc
  · exact hwait

/-- C19 at the toy stream: the selector waits for an intra frame and has temporal cap 0; the
intra packet of frame 20 is accepted at decode target 0. -/
theorem keyframe_start_resynchronises_witness :
    (Toy.waiting.SelectTemporalLayer 0).waitingForIntra = true ∧
      greatestWithinCapsAndActive Toy.tds (Toy.packet 20 0 true false false).activeDecodeTargets
        (Toy.waiting.SelectTemporalLayer 0).spatialLayerId
        (Toy.waiting.SelectTemporalLayer 0).temporalLayerId 0 ∧
      ∃ r, Select (Toy.waiting.SelectTemporalLayer 0) (Toy.packet 20 0 true false false)
          false = some r ∧ r.accept = true ∧ r.self.waitingForIntra = false := by
  exact ⟨rfl, by decide,
    keyframe_start_resynchronises (Toy.waiting.SelectTemporalLayer 0)
      (Toy.packet 20 0 true false false) false (Toy.descriptor 20 0 true false) Toy.tds
      Toy.template0 0 DecodeTargetIndication.Switch rfl rfl rfl (by decide) (by decide)
      (by decide) rfl rfl (by decide) (by decide) rfl (by decide)⟩

/-! ## Start up at the value line 56 tests for -/

end MediaServer
